import Mathlib

/-!
Verification development for the mcp-atlassian tool server.

The development shallowly embeds the repository's registry / argument-coercion /
dispatch layer:

* `src/mcp_atlassian/tools/schema.py` — `ToolDefinition` (with
  `extract_arguments`, `_process_numeric_value`, `_process_boolean_value`) and
  `Toolbox` (`get_tools`, `get_tool`);
* `src/mcp_atlassian/tools/jira.py` and `src/mcp_atlassian/tools/confluence.py`
  — the declared catalogs;
* `src/mcp_atlassian/exceptions.py` — the exception messages;
* `src/mcp_atlassian/server.py` — the `call_tool` dispatcher.

Python values flowing through the dispatcher are modelled by the `Value`
type; exceptions by `PyErr` (a kind tag plus the message that `str(e)`
yields); the external Atlassian collaborators (`ctx.jira` / `ctx.confluence`),
which are not part of the repository, are modelled as an oracle
`CollabCall → Except PyErr String` in `Env`, whose `String` result stands for
the already-serialized payload that the branch embeds in its text response
(the `to_simplified_dict` / `json.dumps` envelope of a successful call is
folded into this payload since no verified property depends on its shape).
Python stdlib functions used by the code (`json.loads`, `Path.exists`,
`os` access via `is_read_only_mode`) are likewise environment parameters.
-/

/-- A Python runtime value as it appears in tool arguments: strings, ints,
floats (modelled as rationals, exact for the decimal literals exercised
here), booleans, lists, and `None`. -/
inductive Value where
  | str (s : String)
  | int (n : Int)
  | float (q : Rat)
  | bool (b : Bool)
  | list (l : List Value)
  | none

/-- A parsed JSON document as produced by `json.loads` (numbers restricted to
integers; no verified claim involves fractional JSON numbers). -/
inductive Json where
  | null
  | bool (b : Bool)
  | num (n : Int)
  | str (s : String)
  | arr (l : List Json)
  | obj (fields : List (String × Json))

/-- A Python exception: the class name and the message `str(e)` produces. -/
structure PyErr where
  kind : String
  msg : String

/-- `mcp.types.TextContent` restricted to the fields the server constructs. -/
structure TextContent where
  type : String
  text : String

/-- Raw tool arguments: the JSON-object mapping the protocol delivers.
Keys are unique in practice; lookup takes the first match. -/
abbrev Args := List (String × Value)

/-- `arguments.get(key, default)` on the raw-arguments mapping. -/
def getArg : Args → String → Value → Value
  | [], _, d => d
  | (k, v) :: rest, key, d => if k == key then v else getArg rest key d

/-- Python truthiness (`bool(value)`): falsy exactly at the type's natural
empty/zero value. -/
def truthy : Value → Bool
  | .none => false
  | .bool b => b
  | .int n => n != 0
  | .float q => q != 0
  | .str s => s != ""
  | .list l => !l.isEmpty

/-- Python `str.strip()`: drop leading and trailing whitespace
(char-level, kernel-reducible). -/
def pyStripChars (l : List Char) : List Char :=
  ((l.dropWhile Char.isWhitespace).reverse.dropWhile Char.isWhitespace).reverse

/-- `str.strip()` on a `String`. -/
def pyStrip (s : String) : String := String.mk (pyStripChars s.data)

/-- `str.lower()` (ASCII, which covers every compared literal). -/
def pyLower (s : String) : String := String.mk (s.data.map Char.toLower)

/-- Python `str.split(",")` on the character list: splits at every comma and
keeps empty segments, `"".split(",") == [""]`. -/
def splitCommaChars : List Char → List (List Char)
  | [] => [[]]
  | c :: rest =>
    if c == ',' then [] :: splitCommaChars rest
    else
      match splitCommaChars rest with
      | [] => [[c]]
      | g :: gs => (c :: g) :: gs

/-- `str.split(",")` on a `String`. -/
def pySplitComma (s : String) : List String := (splitCommaChars s.data).map String.mk

/-- Digit-string accumulation used by the numeric-literal parsers. -/
def digitsToNatAux (acc : Nat) : List Char → Option Nat
  | [] => some acc
  | c :: cs => if c.isDigit then digitsToNatAux (10 * acc + (c.toNat - 48)) cs else Option.none

/-- Parse a non-empty all-digit character run. -/
def parseDigits (l : List Char) : Option Nat :=
  if l.isEmpty then Option.none else digitsToNatAux 0 l

/-- `int(s)` on a string: optional sign then decimal digits, surrounding
whitespace stripped.  (Underscored literals and non-decimal bases are not
modelled; no tool argument uses them.) -/
def parseIntPy (s : String) : Option Int :=
  match pyStripChars s.data with
  | '-' :: rest => (parseDigits rest).map (fun n => -(n : Int))
  | '+' :: rest => (parseDigits rest).map (fun n => (n : Int))
  | l => (parseDigits l).map (fun n => (n : Int))

/-- Split a character run at the first dot, if any. -/
def splitAtDot : List Char → (List Char × Option (List Char))
  | [] => ([], Option.none)
  | c :: cs =>
    if c == '.' then ([], some cs)
    else
      let r := splitAtDot cs
      (c :: r.1, r.2)

/-- Unsigned decimal-float literal: `30`, `30.`, `.5`, `3.5`. -/
def parseUnsignedFloat (l : List Char) : Option Rat :=
  match splitAtDot l with
  | (ip, Option.none) => (parseDigits ip).map (fun n => (n : Rat))
  | (ip, some fp) =>
    if ip.isEmpty && fp.isEmpty then Option.none
    else
      match (if ip.isEmpty then some 0 else parseDigits ip),
            (if fp.isEmpty then some 0 else parseDigits fp) with
      | some n, some f => some ((n : Rat) + (f : Rat) / ((10 : Rat) ^ fp.length))
      | _, _ => Option.none

/-- `float(s)` on a string: optional sign then a decimal literal, whitespace
stripped.  (Exponent, `inf` and `nan` forms are not modelled; exact
rationals coincide with binary64 on the small literals exercised here.) -/
def parseFloatPy (s : String) : Option Rat :=
  match pyStripChars s.data with
  | '-' :: rest => (parseUnsignedFloat rest).map (fun q => -q)
  | '+' :: rest => parseUnsignedFloat rest
  | l => parseUnsignedFloat l

/-- A parameter descriptor from a tool's `input_schema["properties"]` entry.
`default?` is `some d` exactly when the source dict contains a `"default"`
key (`"default": None` becomes `some Value.none`).  Long human-readable
`"description"` strings are elided: no modelled operation consults them. -/
structure PropSchema where
  type? : Option String := Option.none
  default? : Option Value := Option.none
  minimum? : Option Int := Option.none
  maximum? : Option Int := Option.none
  format? : Option String := Option.none

/-- `ToolDefinition` from `tools/schema.py`: the tool name, the ordered
property dictionary and required list of `input_schema`, and the write flag.
The `description` string is elided (not consulted by any modelled
operation). -/
structure ToolDefinition where
  name : String
  properties : List (String × PropSchema)
  required : List String := []
  is_write_operation : Bool := false

/-- Numeric value of a Python object for the `isinstance(value, int | float)`
clamp test in `_process_numeric_value`; `bool` is an `int` subclass in
Python, so `True`/`False` count as `1`/`0`. -/
def numValue? : Value → Option Rat
  | .int n => some (n : Rat)
  | .float q => some q
  | .bool b => some (if b then 1 else 0)
  | _ => Option.none

/-- `ToolDefinition._process_numeric_value`: parse numeric strings (integer
parse for `"integer"` type, float parse otherwise, parse failures suppressed),
then clamp to the schema's `minimum` / `maximum` bounds, replacing an
out-of-range value with the bound itself (an int, as stored in the schema). -/
def ToolDefinition.processNumericValue (value : Value) (sch : PropSchema) : Value :=
  let v :=
    match value with
    | .str s =>
      if pyStrip s != "" then
        if sch.type? == some "integer" then
          match parseIntPy s with
          | some n => Value.int n
          | Option.none => value
        else
          match parseFloatPy s with
          | some q => Value.float q
          | Option.none => value
      else value
    | _ => value
  match numValue? v with
  | Option.none => v
  | some _ =>
    let v1 :=
      match sch.minimum?, numValue? v with
      | some m, some q => if q < (m : Rat) then Value.int m else v
      | _, _ => v
    match sch.maximum?, numValue? v1 with
    | some m, some q => if q > (m : Rat) then Value.int m else v1
    | _, _ => v1

/-- The truthy string set of `_process_boolean_value`. -/
def truthyStrings : List String := ["true", "yes", "1", "t", "y"]

/-- `ToolDefinition._process_boolean_value`: booleans pass through, strings
match case-insensitively against the truthy set, everything else goes
through `bool(value)`. -/
def ToolDefinition.processBooleanValue : Value → Bool
  | .bool b => b
  | .str s => truthyStrings.contains (pyLower s)
  | v => truthy v

/-- `prop_name in raw_arguments` plus `raw_arguments.get(prop_name)`:
membership test and lookup in one step. -/
def lookupArgOpt : Args → String → Option Value
  | [], _ => Option.none
  | (k, v) :: rest, key => if k == key then some v else lookupArgOpt rest key

/-- One step of the `extract_arguments` property loop: supplied values are
type-processed, absent parameters fall back to a declared default, and are
omitted entirely otherwise.  Iteration order is the property declaration
order (Python dicts preserve insertion order). -/
def extractLoop (raw : Args) : List (String × PropSchema) → Args
  | [] => []
  | (p, sch) :: rest =>
    match lookupArgOpt raw p with
    | some v =>
      let v' :=
        match sch.type? with
        | some "integer" => ToolDefinition.processNumericValue v sch
        | some "number" => ToolDefinition.processNumericValue v sch
        | some "boolean" => Value.bool (ToolDefinition.processBooleanValue v)
        | _ => v
      (p, v') :: extractLoop raw rest
    | Option.none =>
      match sch.default? with
      | some d => (p, d) :: extractLoop raw rest
      | Option.none => extractLoop raw rest

/-- `ToolDefinition.extract_arguments`: `None` raw arguments yield the empty
mapping; otherwise every declared property is taken from the raw input
(processed by type) or from its default. -/
def ToolDefinition.extract_arguments (t : ToolDefinition) (raw? : Option Args) : Args :=
  match raw? with
  | Option.none => []
  | some raw => extractLoop raw t.properties

/-- `Toolbox` from `tools/schema.py`: the ordered tool catalog.  The
name-keyed `_tool_cache` dict is modelled by first-match association search,
which agrees with the dict because tool names are unique. -/
structure Toolbox where
  tool_definitions : List ToolDefinition

/-- `Toolbox.get_tools`: drop write operations exactly when in read-only
mode. -/
def Toolbox.get_tools (tb : Toolbox) (read_only : Bool) : List ToolDefinition :=
  tb.tool_definitions.filter (fun tool => !tool.is_write_operation || !read_only)

/-- `Toolbox.get_tool`: name lookup, `none` when absent. -/
def Toolbox.get_tool (tb : Toolbox) (name : String) : Option ToolDefinition :=
  tb.tool_definitions.find? (fun tool => tool.name == name)

/-- The default `fields` selection shared by `jira_get_issue` / `jira_search`
(it also reappears verbatim as the dispatcher-side `arguments.get` default in
`server.py`). -/
def defaultIssueFields : String :=
  "summary,description,status,assignee,reporter,labels,priority,created,updated,issuetype"

/-- `jira_get_issue` from `tools/jira.py`. -/
def jiraGetIssueDef : ToolDefinition where
  name := "jira_get_issue"
  properties :=
    [("issue_key", { type? := some "string" }),
     ("fields", { type? := some "string", default? := some (.str defaultIssueFields) }),
     ("expand", { type? := some "string", default? := some Value.none }),
     ("comment_limit",
      { type? := some "integer", minimum? := some 0, maximum? := some 100,
        default? := some (.int 10) }),
     ("properties", { type? := some "string", default? := some Value.none }),
     ("update_history", { type? := some "boolean", default? := some (.bool true) })]
  required := ["issue_key"]

/-- `jira_search` from `tools/jira.py`. -/
def jiraSearchDef : ToolDefinition where
  name := "jira_search"
  properties :=
    [("jql", { type? := some "string" }),
     ("fields", { type? := some "string", default? := some (.str defaultIssueFields) }),
     ("limit",
      { type? := some "number", default? := some (.int 10),
        minimum? := some 1, maximum? := some 50 }),
     ("startAt", { type? := some "number", default? := some (.int 0), minimum? := some 0 }),
     ("projects_filter", { type? := some "string" })]
  required := ["jql"]

/-- `jira_get_project_issues` from `tools/jira.py`. -/
def jiraGetProjectIssuesDef : ToolDefinition where
  name := "jira_get_project_issues"
  properties :=
    [("project_key", { type? := some "string" }),
     ("limit",
      { type? := some "number", default? := some (.int 10),
        minimum? := some 1, maximum? := some 50 }),
     ("startAt", { type? := some "number", default? := some (.int 0), minimum? := some 0 })]
  required := ["project_key"]

/-- `jira_get_epic_issues` from `tools/jira.py`. -/
def jiraGetEpicIssuesDef : ToolDefinition where
  name := "jira_get_epic_issues"
  properties :=
    [("epic_key", { type? := some "string" }),
     ("limit",
      { type? := some "number", default? := some (.int 10),
        minimum? := some 1, maximum? := some 50 }),
     ("startAt", { type? := some "number", default? := some (.int 0), minimum? := some 0 })]
  required := ["epic_key"]

/-- `jira_get_transitions` from `tools/jira.py`. -/
def jiraGetTransitionsDef : ToolDefinition where
  name := "jira_get_transitions"
  properties := [("issue_key", { type? := some "string" })]
  required := ["issue_key"]

/-- `jira_get_worklog` from `tools/jira.py`. -/
def jiraGetWorklogDef : ToolDefinition where
  name := "jira_get_worklog"
  properties := [("issue_key", { type? := some "string" })]
  required := ["issue_key"]

/-- `jira_download_attachments` from `tools/jira.py`. -/
def jiraDownloadAttachmentsDef : ToolDefinition where
  name := "jira_download_attachments"
  properties :=
    [("issue_key", { type? := some "string" }),
     ("target_dir", { type? := some "string" })]
  required := ["issue_key", "target_dir"]

/-- `jira_get_agile_boards` from `tools/jira.py`. -/
def jiraGetAgileBoardsDef : ToolDefinition where
  name := "jira_get_agile_boards"
  properties :=
    [("board_name", { type? := some "string" }),
     ("project_key", { type? := some "string" }),
     ("board_type", { type? := some "string" }),
     ("startAt", { type? := some "number", default? := some (.int 0) }),
     ("limit",
      { type? := some "number", default? := some (.int 10),
        minimum? := some 1, maximum? := some 50 })]

/-- `jira_get_board_issues` from `tools/jira.py`. -/
def jiraGetBoardIssuesDef : ToolDefinition where
  name := "jira_get_board_issues"
  properties :=
    [("board_id", { type? := some "string" }),
     ("jql", { type? := some "string" }),
     ("fields", { type? := some "string", default? := some (.str "*all") }),
     ("startAt", { type? := some "number", default? := some (.int 0) }),
     ("limit",
      { type? := some "number", default? := some (.int 10),
        minimum? := some 1, maximum? := some 50 }),
     ("expand", { type? := some "string", default? := some (.str "version") })]
  required := ["board_id", "jql"]

/-- `jira_get_sprints_from_board` from `tools/jira.py`. -/
def jiraGetSprintsFromBoardDef : ToolDefinition where
  name := "jira_get_sprints_from_board"
  properties :=
    [("board_id", { type? := some "string" }),
     ("state", { type? := some "string" }),
     ("startAt", { type? := some "number", default? := some (.int 0) }),
     ("limit",
      { type? := some "number", default? := some (.int 10),
        minimum? := some 1, maximum? := some 50 })]

/-- `jira_get_sprint_issues` from `tools/jira.py`. -/
def jiraGetSprintIssuesDef : ToolDefinition where
  name := "jira_get_sprint_issues"
  properties :=
    [("sprint_id", { type? := some "string" }),
     ("fields", { type? := some "string", default? := some (.str "*all") }),
     ("startAt", { type? := some "number", default? := some (.int 0) }),
     ("limit",
      { type? := some "number", default? := some (.int 10),
        minimum? := some 1, maximum? := some 50 })]
  required := ["sprint_id"]

/-- `jira_create_issue` from `tools/jira.py` (write operation). -/
def jiraCreateIssueDef : ToolDefinition where
  name := "jira_create_issue"
  properties :=
    [("project_key", { type? := some "string" }),
     ("summary", { type? := some "string" }),
     ("issue_type", { type? := some "string" }),
     ("assignee", { type? := some "string", default? := some Value.none }),
     ("description", { type? := some "string", default? := some (.str "") }),
     ("components", { type? := some "string", default? := some (.str "") }),
     ("additional_fields", { type? := some "string", default? := some (.str "\x7b\x7d") })]
  required := ["project_key", "summary", "issue_type"]
  is_write_operation := true

/-- `jira_update_issue` from `tools/jira.py` (write operation). -/
def jiraUpdateIssueDef : ToolDefinition where
  name := "jira_update_issue"
  properties :=
    [("issue_key", { type? := some "string" }),
     ("fields", { type? := some "string" }),
     ("additional_fields", { type? := some "string", default? := some (.str "\x7b\x7d") }),
     ("attachments", { type? := some "string" })]
  required := ["issue_key", "fields"]
  is_write_operation := true

/-- `jira_delete_issue` from `tools/jira.py` (write operation). -/
def jiraDeleteIssueDef : ToolDefinition where
  name := "jira_delete_issue"
  properties := [("issue_key", { type? := some "string" })]
  required := ["issue_key"]
  is_write_operation := true

/-- `jira_add_comment` from `tools/jira.py` (write operation). -/
def jiraAddCommentDef : ToolDefinition where
  name := "jira_add_comment"
  properties :=
    [("issue_key", { type? := some "string" }),
     ("comment", { type? := some "string" })]
  required := ["issue_key", "comment"]
  is_write_operation := true

/-- `jira_add_worklog` from `tools/jira.py` (write operation). -/
def jiraAddWorklogDef : ToolDefinition where
  name := "jira_add_worklog"
  properties :=
    [("issue_key", { type? := some "string" }),
     ("time_spent", { type? := some "string" }),
     ("comment", { type? := some "string" }),
     ("started", { type? := some "string" })]
  required := ["issue_key", "time_spent"]
  is_write_operation := true

/-- `jira_link_to_epic` from `tools/jira.py` (write operation). -/
def jiraLinkToEpicDef : ToolDefinition where
  name := "jira_link_to_epic"
  properties :=
    [("issue_key", { type? := some "string" }),
     ("epic_key", { type? := some "string" })]
  required := ["issue_key", "epic_key"]
  is_write_operation := true

/-- `jira_transition_issue` from `tools/jira.py` (write operation). -/
def jiraTransitionIssueDef : ToolDefinition where
  name := "jira_transition_issue"
  properties :=
    [("issue_key", { type? := some "string" }),
     ("transition_id", { type? := some "string" }),
     ("fields", { type? := some "string", default? := some (.str "\x7b\x7d") }),
     ("comment", { type? := some "string" })]
  required := ["issue_key", "transition_id"]
  is_write_operation := true

/-- `JIRA_TOOLS` from `tools/jira.py`, in declaration order. -/
def JIRA_TOOLS : List ToolDefinition :=
  [jiraGetIssueDef, jiraSearchDef, jiraGetProjectIssuesDef, jiraGetEpicIssuesDef,
   jiraGetTransitionsDef, jiraGetWorklogDef, jiraDownloadAttachmentsDef,
   jiraGetAgileBoardsDef, jiraGetBoardIssuesDef, jiraGetSprintsFromBoardDef,
   jiraGetSprintIssuesDef, jiraCreateIssueDef, jiraUpdateIssueDef,
   jiraDeleteIssueDef, jiraAddCommentDef, jiraAddWorklogDef, jiraLinkToEpicDef,
   jiraTransitionIssueDef]

/-- `JIRA_TOOLBOX` from `tools/jira.py`. -/
def JIRA_TOOLBOX : Toolbox := ⟨JIRA_TOOLS⟩

/-- `confluence_search` from `tools/confluence.py`. -/
def confluenceSearchDef : ToolDefinition where
  name := "confluence_search"
  properties :=
    [("query", { type? := some "string" }),
     ("limit",
      { type? := some "number", default? := some (.int 10),
        minimum? := some 1, maximum? := some 50 }),
     ("spaces_filter", { type? := some "string" })]
  required := ["query"]

/-- `confluence_get_page` from `tools/confluence.py`. -/
def confluenceGetPageDef : ToolDefinition where
  name := "confluence_get_page"
  properties :=
    [("page_id", { type? := some "string" }),
     ("include_metadata", { type? := some "boolean", default? := some (.bool true) }),
     ("convert_to_markdown", { type? := some "boolean", default? := some (.bool true) })]
  required := ["page_id"]

/-- `confluence_get_page_children` from `tools/confluence.py`. -/
def confluenceGetPageChildrenDef : ToolDefinition where
  name := "confluence_get_page_children"
  properties :=
    [("parent_id", { type? := some "string" }),
     ("expand", { type? := some "string", default? := some (.str "version") }),
     ("limit",
      { type? := some "number", default? := some (.int 25),
        minimum? := some 1, maximum? := some 50 }),
     ("include_content", { type? := some "boolean", default? := some (.bool false) })]
  required := ["parent_id"]

/-- `confluence_get_page_ancestors` from `tools/confluence.py`. -/
def confluenceGetPageAncestorsDef : ToolDefinition where
  name := "confluence_get_page_ancestors"
  properties := [("page_id", { type? := some "string" })]
  required := ["page_id"]

/-- `confluence_get_comments` from `tools/confluence.py`. -/
def confluenceGetCommentsDef : ToolDefinition where
  name := "confluence_get_comments"
  properties := [("page_id", { type? := some "string" })]
  required := ["page_id"]

/-- `confluence_create_page` from `tools/confluence.py` (write operation). -/
def confluenceCreatePageDef : ToolDefinition where
  name := "confluence_create_page"
  properties :=
    [("space_key", { type? := some "string" }),
     ("title", { type? := some "string" }),
     ("content", { type? := some "string" }),
     ("parent_id", { type? := some "string" })]
  required := ["space_key", "title", "content"]
  is_write_operation := true

/-- `confluence_update_page` from `tools/confluence.py` (write operation). -/
def confluenceUpdatePageDef : ToolDefinition where
  name := "confluence_update_page"
  properties :=
    [("page_id", { type? := some "string" }),
     ("title", { type? := some "string" }),
     ("content", { type? := some "string" }),
     ("is_minor_edit", { type? := some "boolean", default? := some (.bool false) }),
     ("version_comment", { type? := some "string", default? := some (.str "") })]
  required := ["page_id", "title", "content"]
  is_write_operation := true

/-- `confluence_delete_page` from `tools/confluence.py` (write operation). -/
def confluenceDeletePageDef : ToolDefinition where
  name := "confluence_delete_page"
  properties := [("page_id", { type? := some "string" })]
  required := ["page_id"]
  is_write_operation := true

/-- `confluence_attach_content` from `tools/confluence.py` (write operation). -/
def confluenceAttachContentDef : ToolDefinition where
  name := "confluence_attach_content"
  properties :=
    [("content", { type? := some "string", format? := some "binary" }),
     ("name", { type? := some "string" }),
     ("page_id", { type? := some "string" })]
  required := ["content", "name", "page_id"]
  is_write_operation := true

/-- `CONFLUENCE_TOOLS` from `tools/confluence.py`, in declaration order. -/
def CONFLUENCE_TOOLS : List ToolDefinition :=
  [confluenceSearchDef, confluenceGetPageDef, confluenceGetPageChildrenDef,
   confluenceGetPageAncestorsDef, confluenceGetCommentsDef, confluenceCreatePageDef,
   confluenceUpdatePageDef, confluenceDeletePageDef, confluenceAttachContentDef]

/-- `CONFLUENCE_TOOLBOX` from `tools/confluence.py`. -/
def CONFLUENCE_TOOLBOX : Toolbox := ⟨CONFLUENCE_TOOLS⟩

/-- A single-quote character, used to splice Python quoting into messages. -/
def sglq : String := String.singleton (Char.ofNat 39)

/-- Build the `TextContent(type="text", text=...)` blocks the server returns. -/
def mkText (s : String) : TextContent := ⟨"text", s⟩

/-- A `ValueError` with the given message. -/
def valueError (m : String) : PyErr := ⟨"ValueError", m⟩

/-- A `TypeError`; the dispatcher never inspects its message, only that it is
not caught by the `json.JSONDecodeError` / `ApiError` / `RequestException`
handlers. -/
def typeError (m : String) : PyErr := ⟨"TypeError", m⟩

/-- `JiraNotConfiguredError` with its default message (`exceptions.py`). -/
def jiraNotConfigured : PyErr := ⟨"JiraNotConfiguredError", "Jira is not configured."⟩

/-- `ConfluenceNotConfiguredError` with its default message (`exceptions.py`). -/
def confluenceNotConfigured : PyErr :=
  ⟨"ConfluenceNotConfiguredError", "Confluence is not configured."⟩

/-- `InvalidJSONError(field_name=f)` (`exceptions.py`): the default message
`"Invalid JSON format"` prefixed with the offending field name. -/
def invalidJSONError (fieldName : String) : PyErr :=
  ⟨"InvalidJSONError", "Invalid JSON in " ++ fieldName ++ ": Invalid JSON format"⟩

/-- `str(value)` as used in f-string interpolation.  The float and list
renderings are approximations (no verified claim interpolates them). -/
def pyStr : Value → String
  | .str s => s
  | .int n => toString n
  | .bool b => if b then "True" else "False"
  | .none => "None"
  | .float q => toString q
  | .list _ => "[...]"

/-- `type(value).__name__`. -/
def typeName : Value → String
  | .str _ => "str"
  | .int _ => "int"
  | .bool _ => "bool"
  | .float _ => "float"
  | .none => "NoneType"
  | .list _ => "list"

/-- Char-list prefix test for the substring model. -/
def charsIsPrefix : List Char → List Char → Bool
  | [], _ => true
  | _ :: _, [] => false
  | a :: as, b :: bs => a == b && charsIsPrefix as bs

/-- Char-list substring test. -/
def charsContains (sub : List Char) : List Char → Bool
  | [] => sub.isEmpty
  | c :: rest => charsIsPrefix sub (c :: rest) || charsContains sub rest

/-- Python `sub in s` on strings. -/
def pyInStr (sub s : String) : Bool := charsContains sub.data s.data

/-- Python `sub in container` where the container is an argument `Value`:
substring test on strings, element-wise equality on lists, `TypeError`
otherwise (as CPython raises for non-container operands). -/
def pyInV (sub : String) : Value → Except PyErr Bool
  | .str s => .ok (pyInStr sub s)
  | .list l =>
    .ok (l.any (fun e => match e with | .str t => t == sub | _ => false))
  | v => .error (typeError ("argument of type " ++ sglq ++ typeName v ++ sglq ++ " is not iterable"))

/-- `int(value)` on an argument `Value`: ints pass through, bools are `0/1`,
floats truncate toward zero, strings parse as decimal integers
(`ValueError` on failure), other types raise `TypeError`. -/
def pyIntE : Value → Except PyErr Int
  | .int n => .ok n
  | .bool b => .ok (if b then 1 else 0)
  | .float q => .ok (if 0 ≤ q then ⌊q⌋ else ⌈q⌉)
  | .str s =>
    match parseIntPy s with
    | some n => .ok n
    | Option.none =>
      .error (valueError ("invalid literal for int() with base 10: " ++ sglq ++ s ++ sglq))
  | .none => .error (typeError "int() argument cannot be NoneType")
  | .list _ => .error (typeError "int() argument cannot be list")

/-- `str.isdigit()` restricted to ASCII digits (all transition ids are). -/
def strIsDigit (s : String) : Bool := !s.data.isEmpty && s.data.all Char.isDigit

/-- One collaborator invocation, carrying exactly the arguments the
dispatcher passes to `ctx.confluence` / `ctx.jira`.  Constructors map
one-to-one to the collaborator methods `server.py` calls. -/
inductive CollabCall where
  | confluenceSearch (query : Value) (limit : Int) (spacesFilter : Value)
  | confluenceGetPage (pageId : Value) (convertToMarkdown : Value)
  | confluenceGetPageChildren (pageId start : Value) (limit : Int)
      (expand convertToMarkdown : Value)
  | confluenceGetPageAncestors (pageId : Value)
  | confluenceGetComments (pageId : Value)
  | confluenceCreatePage (spaceKey title body parentId : Value)
  | confluenceUpdatePage (pageId title body isMinorEdit versionComment : Value)
  | confluenceDeletePage (pageId : Value)
  | confluenceAttachContent (content name pageId : Value)
  | jiraGetIssue (issueKey fields expand commentLimit properties updateHistory : Value)
  | jiraSearchIssues (jql fields : Value) (limit start : Int) (projectsFilter : Value)
  | jiraGetProjectIssues (projectKey : Value) (start limit : Int)
  | jiraGetEpicIssues (epicKey : Value) (start limit : Int)
  | jiraGetTransitions (issueKey : Value)
  | jiraGetWorklogs (issueKey : Value)
  | jiraDownloadAttachments (issueKey targetDir : Value)
  | jiraGetAgileBoards (boardName projectKey boardType : Value) (start limit : Int)
  | jiraGetBoardIssues (boardId jql fields : Value) (start limit : Int) (expand : Value)
  | jiraGetSprintsFromBoard (boardId state : Value) (start limit : Int)
  | jiraGetSprintIssues (sprintId fields : Value) (start limit : Int)
  | jiraCreateIssue (projectKey summary issueType description assignee components : Value)
      (additionalFields : List (String × Json))
  | jiraUpdateIssue (issueKey : Value) (fields additionalFields : List (String × Json))
  | jiraDeleteIssue (issueKey : Value)
  | jiraAddComment (issueKey comment : Value)
  | jiraAddWorklog (issueKey timeSpent comment started : Value)
  | jiraLinkIssueToEpic (issueKey epicKey : Value)
  | jiraTransitionIssue (issueKey transitionId : Value) (fields : Json) (comment : Value)

/-- The effective `limit` argument of a paginated collaborator call, when
the call has one computed by the dispatcher's `min(int(...), 50)` pattern. -/
def CollabCall.limitArg : CollabCall → Option Int
  | .confluenceSearch _ l _ => some l
  | .confluenceGetPageChildren _ _ l _ _ => some l
  | .jiraSearchIssues _ _ l _ _ => some l
  | .jiraGetProjectIssues _ _ l => some l
  | .jiraGetEpicIssues _ _ l => some l
  | .jiraGetAgileBoards _ _ _ _ l => some l
  | .jiraGetBoardIssues _ _ _ _ l _ => some l
  | .jiraGetSprintsFromBoard _ _ _ l => some l
  | .jiraGetSprintIssues _ _ _ l => some l
  | _ => Option.none

/-- The process environment of one `call_tool` request: the read-only flag
(`is_read_only_mode`), which product-area collaborators are configured on the
lifespan context, the collaborator oracle, and the Python stdlib services the
dispatcher uses (`json.loads`, `pathlib.Path.exists`). -/
structure Env where
  readOnly : Bool
  confluenceConfigured : Bool
  jiraConfigured : Bool
  collab : CollabCall → Except PyErr String
  jsonLoads : String → Option Json
  pathExists : String → Bool

/-- The outcome of one dispatcher branch: the result (or the exception about
to reach the outer `except`) together with the collaborator calls made. -/
abbrev BranchOut := Except PyErr (List TextContent) × List CollabCall

/-- The `try: json.loads(...) except JSONDecodeError: raise InvalidJSONError`
pattern: a parse failure on a string becomes the field-tagged
`InvalidJSONError`; a non-string operand raises `TypeError` (which the
`JSONDecodeError` handler does not catch). -/
def parseJsonField (env : Env) (fieldName : String) : Value → Except PyErr Json
  | .str s =>
    match env.jsonLoads s with
    | some j => .ok j
    | Option.none => .error (invalidJSONError fieldName)
  | v => .error (typeError ("the JSON object must be str, not " ++ typeName v))

/-- `**parsed` keyword expansion: only a JSON object can be splatted; any
other JSON document raises `TypeError` at the call site. -/
def asObj : Json → Except PyErr (List (String × Json))
  | .obj fields => .ok fields
  | _ => .error (typeError "argument after ** must be a mapping")

/-- Python dict item assignment `d[k] = v`: replace in place or append. -/
def setKey : List (String × Json) → String → Json → List (String × Json)
  | [], k, v => [(k, v)]
  | (k', v') :: rest, k, v =>
    if k' == k then (k, v) :: rest else (k', v') :: setKey rest k v

/-- `get_read_only_response` from `server.py`. -/
def readOnlyResponse (operationName : String) : List TextContent :=
  [mkText ("Operation " ++ sglq ++ operationName ++ sglq ++
    " is not available in read-only mode.")]

/-- The CQL-operator hints of the `confluence_search` branch. -/
def cqlOperatorHints : List String := ["=", "~", ">", "<", " AND ", " OR ", "currentUser()"]

/-- `any(x in query for x in [...])` over the hint list, with Python's
left-to-right evaluation (a `TypeError` surfaces at the first test). -/
def anyHintIn (query : Value) : Except PyErr Bool :=
  cqlOperatorHints.anyM (fun x => pyInV x query)

/-- The `confluence_search` branch of `call_tool`. -/
def confluenceSearchBranch (env : Env) (args : Args) : BranchOut :=
  if !env.confluenceConfigured then (.error confluenceNotConfigured, [])
  else
    let query := getArg args "query" (.str "")
    match pyIntE (getArg args "limit" (.int 10)) with
    | .error e => (.error e, [])
    | .ok n =>
      let limit := min n 50
      let spacesFilter := getArg args "spaces_filter" Value.none
      let queryE : Except PyErr Value :=
        if truthy query then
          match anyHintIn query with
          | .error e => .error e
          | .ok true => .ok query
          | .ok false => .ok (Value.str ("text ~ \"" ++ pyStr query ++ "\""))
        else .ok query
      match queryE with
      | .error e => (.error e, [])
      | .ok q =>
        let c := CollabCall.confluenceSearch q limit spacesFilter
        match env.collab c with
        | .error e => (.error e, [c])
        | .ok payload => (.ok [mkText payload], [c])

/-- The `confluence_get_page` branch.  `include_metadata` only selects which
envelope wraps the page before serialization; the envelope is part of the
abstracted payload. -/
def confluenceGetPageBranch (env : Env) (args : Args) : BranchOut :=
  if !env.confluenceConfigured then (.error confluenceNotConfigured, [])
  else
    let pageId := getArg args "page_id" Value.none
    let convertToMarkdown := getArg args "convert_to_markdown" (.bool true)
    let c := CollabCall.confluenceGetPage pageId convertToMarkdown
    match env.collab c with
    | .error e => (.error e, [c])
    | .ok payload => (.ok [mkText payload], [c])

/-- The `confluence_get_page_children` branch: its inner `try` converts a
collaborator failure into an error-document response (the JSON envelope of
both outcomes is abstracted to the embedded message/payload). -/
def confluenceGetPageChildrenBranch (env : Env) (args : Args) : BranchOut :=
  if !env.confluenceConfigured then (.error confluenceNotConfigured, [])
  else
    let parentId := getArg args "parent_id" Value.none
    let expand := getArg args "expand" (.str "version")
    match pyIntE (getArg args "limit" (.int 25)) with
    | .error e => (.error e, [])
    | .ok n =>
      let limit := min n 50
      let includeContent := getArg args "include_content" (.bool false)
      let convertToMarkdown := getArg args "convert_to_markdown" (.bool true)
      let start := getArg args "start" (.int 0)
      let expandE : Except PyErr Value :=
        if truthy includeContent then
          match pyInV "body" expand with
          | .error e => .error e
          | .ok true => .ok expand
          | .ok false =>
            .ok (Value.str (if truthy expand then pyStr expand ++ ",body.storage"
                            else "body.storage"))
        else .ok expand
      match expandE with
      | .error e => (.error e, [])
      | .ok ex =>
        let c := CollabCall.confluenceGetPageChildren parentId start limit ex convertToMarkdown
        match env.collab c with
        | .error e => (.ok [mkText ("Failed to get child pages: " ++ e.msg)], [c])
        | .ok payload => (.ok [mkText payload], [c])

/-- The `confluence_get_page_ancestors` branch. -/
def confluenceGetPageAncestorsBranch (env : Env) (args : Args) : BranchOut :=
  if !env.confluenceConfigured then (.error confluenceNotConfigured, [])
  else
    let pageId := getArg args "page_id" Value.none
    let c := CollabCall.confluenceGetPageAncestors pageId
    match env.collab c with
    | .error e => (.error e, [c])
    | .ok payload => (.ok [mkText payload], [c])

/-- The `confluence_get_comments` branch. -/
def confluenceGetCommentsBranch (env : Env) (args : Args) : BranchOut :=
  if !env.confluenceConfigured then (.error confluenceNotConfigured, [])
  else
    let pageId := getArg args "page_id" Value.none
    let c := CollabCall.confluenceGetComments pageId
    match env.collab c with
    | .error e => (.error e, [c])
    | .ok payload => (.ok [mkText payload], [c])

/-- The `confluence_create_page` branch (write-gated). -/
def confluenceCreatePageBranch (env : Env) (args : Args) : BranchOut :=
  if !env.confluenceConfigured then (.error confluenceNotConfigured, [])
  else if env.readOnly then (.ok (readOnlyResponse "confluence_create_page"), [])
  else
    let spaceKey := getArg args "space_key" Value.none
    let title := getArg args "title" Value.none
    let content := getArg args "content" Value.none
    let parentId := getArg args "parent_id" Value.none
    let c := CollabCall.confluenceCreatePage spaceKey title content parentId
    match env.collab c with
    | .error e => (.error e, [c])
    | .ok payload => (.ok [mkText ("Page created successfully:\n" ++ payload)], [c])

/-- The `confluence_update_page` branch (write-gated): missing
`page_id`/`title`/`content` raise a `ValueError` handled by the outer
`except`. -/
def confluenceUpdatePageBranch (env : Env) (args : Args) : BranchOut :=
  if !env.confluenceConfigured then (.error confluenceNotConfigured, [])
  else if env.readOnly then (.ok (readOnlyResponse "confluence_update_page"), [])
  else
    let pageId := getArg args "page_id" Value.none
    let title := getArg args "title" Value.none
    let content := getArg args "content" Value.none
    let isMinorEdit := getArg args "is_minor_edit" (.bool false)
    let versionComment := getArg args "version_comment" (.str "")
    if !truthy pageId || !truthy title || !truthy content then
      (.error (valueError
        "Missing required parameters: page_id, title, and content are required."), [])
    else
      let c := CollabCall.confluenceUpdatePage pageId title content isMinorEdit versionComment
      match env.collab c with
      | .error e => (.error e, [c])
      | .ok payload => (.ok [mkText payload], [c])

/-- The `confluence_delete_page` branch (write-gated): its inner `try`
converts any collaborator failure into an error document.  The JSON
success/failure envelopes are abstracted to their embedded message, and the
rarely-reachable falsy-result message variant is collapsed into the success
message. -/
def confluenceDeletePageBranch (env : Env) (args : Args) : BranchOut :=
  if !env.confluenceConfigured then (.error confluenceNotConfigured, [])
  else if env.readOnly then (.ok (readOnlyResponse "confluence_delete_page"), [])
  else
    let pageId := getArg args "page_id" Value.none
    if !truthy pageId then
      (.error (valueError "Missing required parameter: page_id is required."), [])
    else
      let c := CollabCall.confluenceDeletePage pageId
      match env.collab c with
      | .error e =>
        (.ok [mkText ("Error deleting page " ++ pyStr pageId ++ ": " ++ e.msg)], [c])
      | .ok _ => (.ok [mkText ("Page " ++ pyStr pageId ++ " deleted successfully")], [c])

/-- The `confluence_attach_content` branch (write-gated): missing parameters
return an error text directly; `ApiError` / `RequestException` from the
collaborator are converted to text in the branch, any other exception
reaches the outer handler. -/
def confluenceAttachContentBranch (env : Env) (args : Args) : BranchOut :=
  if !env.confluenceConfigured then (.error confluenceNotConfigured, [])
  else if env.readOnly then (.ok (readOnlyResponse "confluence_attach_content"), [])
  else
    let content := getArg args "content" Value.none
    let nameV := getArg args "name" Value.none
    let pageId := getArg args "page_id" Value.none
    if !truthy content || !truthy nameV || !truthy pageId then
      (.ok [mkText
        "Error: Missing required parameters: content, name, and page_id are required."], [])
    else
      let c := CollabCall.confluenceAttachContent content nameV pageId
      match env.collab c with
      | .error e =>
        if e.kind == "ApiError" then
          (.ok [mkText ("Confluence API Error when trying to attach content " ++
            pyStr nameV ++ " to page " ++ pyStr pageId ++ ": " ++ e.msg)], [c])
        else if e.kind == "RequestException" then
          (.ok [mkText ("Network error when trying to attach content " ++
            pyStr nameV ++ " to page " ++ pyStr pageId ++ ": " ++ e.msg)], [c])
        else (.error e, [c])
      | .ok payload => (.ok [mkText payload], [c])

/-- The `jira_get_issue` branch. -/
def jiraGetIssueBranch (env : Env) (args : Args) : BranchOut :=
  if !env.jiraConfigured then (.error jiraNotConfigured, [])
  else
    let issueKey := getArg args "issue_key" Value.none
    let fields := getArg args "fields" (.str defaultIssueFields)
    let expand := getArg args "expand" Value.none
    let commentLimit := getArg args "comment_limit" (.int 10)
    let properties := getArg args "properties" Value.none
    let updateHistory := getArg args "update_history" (.bool true)
    let c := CollabCall.jiraGetIssue issueKey fields expand commentLimit properties updateHistory
    match env.collab c with
    | .error e => (.error e, [c])
    | .ok payload => (.ok [mkText payload], [c])

/-- The `jira_search` branch: the effective limit is
`min(int(arguments.get("limit", 10)), 50)`. -/
def jiraSearchBranch (env : Env) (args : Args) : BranchOut :=
  if !env.jiraConfigured then (.error jiraNotConfigured, [])
  else
    let jql := getArg args "jql" Value.none
    let fields := getArg args "fields" (.str defaultIssueFields)
    match pyIntE (getArg args "limit" (.int 10)) with
    | .error e => (.error e, [])
    | .ok n =>
      let limit := min n 50
      let projectsFilter := getArg args "projects_filter" Value.none
      match pyIntE (getArg args "startAt" (.int 0)) with
      | .error e => (.error e, [])
      | .ok startAt =>
        let c := CollabCall.jiraSearchIssues jql fields limit startAt projectsFilter
        match env.collab c with
        | .error e => (.error e, [c])
        | .ok payload => (.ok [mkText payload], [c])

/-- The `jira_get_project_issues` branch. -/
def jiraGetProjectIssuesBranch (env : Env) (args : Args) : BranchOut :=
  if !env.jiraConfigured then (.error jiraNotConfigured, [])
  else
    let projectKey := getArg args "project_key" Value.none
    match pyIntE (getArg args "limit" (.int 10)) with
    | .error e => (.error e, [])
    | .ok n =>
      let limit := min n 50
      match pyIntE (getArg args "startAt" (.int 0)) with
      | .error e => (.error e, [])
      | .ok startAt =>
        let c := CollabCall.jiraGetProjectIssues projectKey startAt limit
        match env.collab c with
        | .error e => (.error e, [c])
        | .ok payload => (.ok [mkText payload], [c])

/-- The `jira_get_epic_issues` branch. -/
def jiraGetEpicIssuesBranch (env : Env) (args : Args) : BranchOut :=
  if !env.jiraConfigured then (.error jiraNotConfigured, [])
  else
    let epicKey := getArg args "epic_key" Value.none
    match pyIntE (getArg args "limit" (.int 10)) with
    | .error e => (.error e, [])
    | .ok n =>
      let limit := min n 50
      match pyIntE (getArg args "startAt" (.int 0)) with
      | .error e => (.error e, [])
      | .ok startAt =>
        let c := CollabCall.jiraGetEpicIssues epicKey startAt limit
        match env.collab c with
        | .error e => (.error e, [c])
        | .ok payload => (.ok [mkText payload], [c])

/-- The `jira_get_transitions` branch. -/
def jiraGetTransitionsBranch (env : Env) (args : Args) : BranchOut :=
  if !env.jiraConfigured then (.error jiraNotConfigured, [])
  else
    let issueKey := getArg args "issue_key" Value.none
    let c := CollabCall.jiraGetTransitions issueKey
    match env.collab c with
    | .error e => (.error e, [c])
    | .ok payload => (.ok [mkText payload], [c])

/-- The `jira_get_worklog` branch. -/
def jiraGetWorklogBranch (env : Env) (args : Args) : BranchOut :=
  if !env.jiraConfigured then (.error jiraNotConfigured, [])
  else
    let issueKey := getArg args "issue_key" Value.none
    let c := CollabCall.jiraGetWorklogs issueKey
    match env.collab c with
    | .error e => (.error e, [c])
    | .ok payload => (.ok [mkText payload], [c])

/-- The `jira_download_attachments` branch: missing parameters raise
`ValueError` for the outer handler. -/
def jiraDownloadAttachmentsBranch (env : Env) (args : Args) : BranchOut :=
  if !env.jiraConfigured then (.error jiraNotConfigured, [])
  else
    let issueKey := getArg args "issue_key" Value.none
    let targetDir := getArg args "target_dir" Value.none
    if !truthy issueKey then
      (.error (valueError "Missing required parameter: issue_key"), [])
    else if !truthy targetDir then
      (.error (valueError "Missing required parameter: target_dir"), [])
    else
      let c := CollabCall.jiraDownloadAttachments issueKey targetDir
      match env.collab c with
      | .error e => (.error e, [c])
      | .ok payload => (.ok [mkText payload], [c])

/-- The `jira_get_agile_boards` branch. -/
def jiraGetAgileBoardsBranch (env : Env) (args : Args) : BranchOut :=
  if !env.jiraConfigured then (.error jiraNotConfigured, [])
  else
    let boardName := getArg args "board_name" Value.none
    let projectKey := getArg args "project_key" Value.none
    let boardType := getArg args "board_type" Value.none
    match pyIntE (getArg args "startAt" (.int 0)) with
    | .error e => (.error e, [])
    | .ok startAt =>
      match pyIntE (getArg args "limit" (.int 10)) with
      | .error e => (.error e, [])
      | .ok n =>
        let limit := min n 50
        let c := CollabCall.jiraGetAgileBoards boardName projectKey boardType startAt limit
        match env.collab c with
        | .error e => (.error e, [c])
        | .ok payload => (.ok [mkText payload], [c])

/-- The `jira_get_board_issues` branch. -/
def jiraGetBoardIssuesBranch (env : Env) (args : Args) : BranchOut :=
  if !env.jiraConfigured then (.error jiraNotConfigured, [])
  else
    let boardId := getArg args "board_id" Value.none
    let jql := getArg args "jql" Value.none
    let fields := getArg args "fields" (.str "*all")
    match pyIntE (getArg args "startAt" (.int 0)) with
    | .error e => (.error e, [])
    | .ok startAt =>
      match pyIntE (getArg args "limit" (.int 10)) with
      | .error e => (.error e, [])
      | .ok n =>
        let limit := min n 50
        let expand := getArg args "expand" (.str "version")
        let c := CollabCall.jiraGetBoardIssues boardId jql fields startAt limit expand
        match env.collab c with
        | .error e => (.error e, [c])
        | .ok payload => (.ok [mkText payload], [c])

/-- The `jira_get_sprints_from_board` branch (dispatcher-side default state
`"active"`). -/
def jiraGetSprintsFromBoardBranch (env : Env) (args : Args) : BranchOut :=
  if !env.jiraConfigured then (.error jiraNotConfigured, [])
  else
    let boardId := getArg args "board_id" Value.none
    let state := getArg args "state" (.str "active")
    match pyIntE (getArg args "startAt" (.int 0)) with
    | .error e => (.error e, [])
    | .ok startAt =>
      match pyIntE (getArg args "limit" (.int 10)) with
      | .error e => (.error e, [])
      | .ok n =>
        let limit := min n 50
        let c := CollabCall.jiraGetSprintsFromBoard boardId state startAt limit
        match env.collab c with
        | .error e => (.error e, [c])
        | .ok payload => (.ok [mkText payload], [c])

/-- The `jira_get_sprint_issues` branch. -/
def jiraGetSprintIssuesBranch (env : Env) (args : Args) : BranchOut :=
  if !env.jiraConfigured then (.error jiraNotConfigured, [])
  else
    let sprintId := getArg args "sprint_id" Value.none
    let fields := getArg args "fields" (.str "*all")
    match pyIntE (getArg args "startAt" (.int 0)) with
    | .error e => (.error e, [])
    | .ok startAt =>
      match pyIntE (getArg args "limit" (.int 10)) with
      | .error e => (.error e, [])
      | .ok n =>
        let limit := min n 50
        let c := CollabCall.jiraGetSprintIssues sprintId fields startAt limit
        match env.collab c with
        | .error e => (.error e, [c])
        | .ok payload => (.ok [mkText payload], [c])

/-- The `jira_create_issue` branch (write-gated): comma-separated components
are split, stripped and cleared of empties; `additional_fields` is parsed
from JSON and keyword-splatted into the collaborator call. -/
def jiraCreateIssueBranch (env : Env) (args : Args) : BranchOut :=
  if !env.jiraConfigured then (.error jiraNotConfigured, [])
  else if env.readOnly then (.ok (readOnlyResponse "jira_create_issue"), [])
  else
    let projectKey := getArg args "project_key" Value.none
    let summary := getArg args "summary" Value.none
    let issueType := getArg args "issue_type" Value.none
    let description := getArg args "description" (.str "")
    let assignee := getArg args "assignee" Value.none
    let components := getArg args "components" Value.none
    let components :=
      if truthy components then
        match components with
        | .str s =>
          Value.list ((((pySplitComma s).map pyStrip).filter (fun comp => comp != "")
            ).map Value.str)
        | v => v
      else components
    let addE : Except PyErr Json :=
      if truthy (getArg args "additional_fields" Value.none) then
        parseJsonField env "additional_fields" (getArg args "additional_fields" Value.none)
      else .ok (.obj [])
    match addE with
    | .error e => (.error e, [])
    | .ok aj =>
      match asObj aj with
      | .error e => (.error e, [])
      | .ok aobj =>
        let c := CollabCall.jiraCreateIssue projectKey summary issueType description
          assignee components aobj
        match env.collab c with
        | .error e => (.error e, [c])
        | .ok payload => (.ok [mkText ("Issue created successfully:\n" ++ payload)], [c])

/-- The `for path in attachments[:]: ... attachments.remove(path)` loop of
the `jira_update_issue` branch: iterate over a copy, erasing from the
original every path that does not exist on disk. -/
def removeMissingAux (ex : String → Bool) : List String → List String → List String
  | acc, [] => acc
  | acc, p :: rest => removeMissingAux ex (if ex p then acc else acc.erase p) rest

/-- Run the removal loop over a copy of the list, as the source does. -/
def removeMissing (ex : String → Bool) (l : List String) : List String :=
  removeMissingAux ex l l

/-- Normalize the `attachments` argument of `jira_update_issue` to the items
the validation loop iterates: a JSON-parsed array, a single JSON-parsed
value, a comma-split and stripped list, a plain single path, or the
already-a-list argument.  Items are reduced to `some path` for strings and
`none` for any non-string item (on which `Path(...)` raises `TypeError`);
a truthy argument that is neither a string nor a list leaves the initial
empty accumulator untouched. -/
def normalizeAttachments (env : Env) (attachArg : Value) : List (Option String) :=
  if truthy attachArg then
    match attachArg with
    | .str s =>
      match env.jsonLoads s with
      | some (.arr items) =>
        items.map (fun j => match j with | .str t => some t | _ => Option.none)
      | some (.str t) => [some t]
      | some _ => [Option.none]
      | Option.none =>
        if pyInStr "," s then ((pySplitComma s).map pyStrip).map some
        else [some s]
    | .list l => l.map (fun v => match v with | .str t => some t | _ => Option.none)
    | _ => []
  else []

/-- Validate the normalized attachment items: a non-string item raises
`TypeError` (reaching the outer handler, since validation precedes the
branch's inner `try`); otherwise the existence loop drops missing paths. -/
def validateAttachments (env : Env) (items : List (Option String)) :
    Except PyErr (List String) :=
  if items.all Option.isSome then
    .ok (removeMissing env.pathExists (items.filterMap id))
  else .error (typeError "argument should be a str or an os.PathLike object")

/-- The `jira_update_issue` branch (write-gated): `fields` and
`additional_fields` are JSON-parsed (each failure raising the field-tagged
`InvalidJSONError` before any collaborator contact), attachments are
normalized and filtered to existing paths (missing ones only logged), and
the inner `try` converts any failure of the collaborator call itself —
including the `TypeError` of keyword-splatting a non-object — into an error
text.  The two splat checks are modelled before the call; in CPython they
surface at the call site inside the same `try`. -/
def jiraUpdateIssueBranch (env : Env) (args : Args) : BranchOut :=
  if !env.jiraConfigured then (.error jiraNotConfigured, [])
  else if env.readOnly then (.ok (readOnlyResponse "jira_update_issue"), [])
  else
    let issueKey := getArg args "issue_key" Value.none
    let fieldsE : Except PyErr Json :=
      if truthy (getArg args "fields" Value.none) then
        parseJsonField env "fields" (getArg args "fields" Value.none)
      else .ok (.obj [])
    match fieldsE with
    | .error e => (.error e, [])
    | .ok fj =>
      let addE : Except PyErr Json :=
        if truthy (getArg args "additional_fields" Value.none) then
          parseJsonField env "additional_fields" (getArg args "additional_fields" Value.none)
        else .ok (.obj [])
      match addE with
      | .error e => (.error e, [])
      | .ok aj =>
        match validateAttachments env (normalizeAttachments env (getArg args "attachments" Value.none)) with
        | .error e => (.error e, [])
        | .ok attachments =>
          match asObj fj with
          | .error e =>
            (.ok [mkText ("Error updating issue " ++ pyStr issueKey ++ ": " ++ e.msg)], [])
          | .ok fobj =>
            match asObj aj with
            | .error e =>
              (.ok [mkText ("Error updating issue " ++ pyStr issueKey ++ ": " ++ e.msg)], [])
            | .ok aobj =>
              let aobj :=
                if attachments.isEmpty then aobj
                else setKey aobj "attachments" (Json.arr (attachments.map Json.str))
              let c := CollabCall.jiraUpdateIssue issueKey fobj aobj
              match env.collab c with
              | .error e =>
                (.ok [mkText ("Error updating issue " ++ pyStr issueKey ++ ": " ++ e.msg)], [c])
              | .ok payload =>
                (.ok [mkText ("Issue updated successfully:\n" ++ payload)], [c])

/-- The `jira_delete_issue` branch (write-gated); the JSON message envelope
is abstracted to its message text. -/
def jiraDeleteIssueBranch (env : Env) (args : Args) : BranchOut :=
  if !env.jiraConfigured then (.error jiraNotConfigured, [])
  else if env.readOnly then (.ok (readOnlyResponse "jira_delete_issue"), [])
  else
    let issueKey := getArg args "issue_key" Value.none
    let c := CollabCall.jiraDeleteIssue issueKey
    match env.collab c with
    | .error e => (.error e, [c])
    | .ok _ =>
      (.ok [mkText ("Issue " ++ pyStr issueKey ++ " has been deleted successfully.")], [c])

/-- The `jira_add_comment` branch (write-gated). -/
def jiraAddCommentBranch (env : Env) (args : Args) : BranchOut :=
  if !env.jiraConfigured then (.error jiraNotConfigured, [])
  else if env.readOnly then (.ok (readOnlyResponse "jira_add_comment"), [])
  else
    let issueKey := getArg args "issue_key" Value.none
    let comment := getArg args "comment" Value.none
    let c := CollabCall.jiraAddComment issueKey comment
    match env.collab c with
    | .error e => (.error e, [c])
    | .ok payload => (.ok [mkText payload], [c])

/-- The `jira_add_worklog` branch (write-gated); the JSON message envelope
is abstracted to the worklog payload. -/
def jiraAddWorklogBranch (env : Env) (args : Args) : BranchOut :=
  if !env.jiraConfigured then (.error jiraNotConfigured, [])
  else if env.readOnly then (.ok (readOnlyResponse "jira_add_worklog"), [])
  else
    let issueKey := getArg args "issue_key" Value.none
    let timeSpent := getArg args "time_spent" Value.none
    let comment := getArg args "comment" Value.none
    let started := getArg args "started" Value.none
    let c := CollabCall.jiraAddWorklog issueKey timeSpent comment started
    match env.collab c with
    | .error e => (.error e, [c])
    | .ok payload => (.ok [mkText payload], [c])

/-- The `jira_link_to_epic` branch (write-gated); the JSON message envelope
is abstracted to the issue payload. -/
def jiraLinkToEpicBranch (env : Env) (args : Args) : BranchOut :=
  if !env.jiraConfigured then (.error jiraNotConfigured, [])
  else if env.readOnly then (.ok (readOnlyResponse "jira_link_to_epic"), [])
  else
    let issueKey := getArg args "issue_key" Value.none
    let epicKey := getArg args "epic_key" Value.none
    let c := CollabCall.jiraLinkIssueToEpic issueKey epicKey
    match env.collab c with
    | .error e => (.error e, [c])
    | .ok payload => (.ok [mkText payload], [c])

/-- The `jira_transition_issue` branch (write-gated): required-parameter
checks, numeric-string transition-id conversion, `fields` JSON parsing, and
an inner `try` whose handler rewrites the integer-transition-id API
complaint. -/
def jiraTransitionIssueBranch (env : Env) (args : Args) : BranchOut :=
  if !env.jiraConfigured then (.error jiraNotConfigured, [])
  else if env.readOnly then (.ok (readOnlyResponse "jira_transition_issue"), [])
  else
    let issueKey := getArg args "issue_key" Value.none
    let transitionId := getArg args "transition_id" Value.none
    let comment := getArg args "comment" Value.none
    if !truthy issueKey then (.error (valueError "issue_key is required"), [])
    else if !truthy transitionId then (.error (valueError "transition_id is required"), [])
    else
      let tid :=
        match transitionId with
        | .str s =>
          if strIsDigit s then
            match parseIntPy s with
            | some n => Value.int n
            | Option.none => transitionId
          else transitionId
        | v => v
      let fieldsE : Except PyErr Json :=
        if truthy (getArg args "fields" Value.none) then
          parseJsonField env "fields" (getArg args "fields" Value.none)
        else .ok (.obj [])
      match fieldsE with
      | .error e => (.error e, [])
      | .ok fj =>
        let c := CollabCall.jiraTransitionIssue issueKey tid fj comment
        match env.collab c with
        | .error e =>
          let errorMsg :=
            if pyInStr (sglq ++ "transition" ++ sglq ++ " identifier must be an integer")
                e.msg then
              "Error transitioning issue " ++ pyStr issueKey ++
              ": The Jira API requires transition IDs to be integers. " ++
              "Received transition ID " ++ sglq ++ pyStr tid ++ sglq ++ " of type " ++
              typeName tid ++ ". Please use the numeric ID value from jira_get_transitions."
            else
              "Error transitioning issue " ++ pyStr issueKey ++ " with transition ID " ++
              pyStr tid ++ ": " ++ e.msg
          (.ok [mkText errorMsg], [c])
        | .ok payload => (.ok [mkText payload], [c])

/-- The branch selector of `call_tool`: the `match tool.name` statement.
The fallthrough `case _` raises the in-`try` unknown-tool `ValueError`
(reachable only for a catalog entry without a branch, of which there are
none). -/
def dispatchBody (env : Env) (tool : ToolDefinition) (name : String) (args : Args) :
    BranchOut :=
  match tool.name with
  | "confluence_search" => confluenceSearchBranch env args
  | "confluence_get_page" => confluenceGetPageBranch env args
  | "confluence_get_page_children" => confluenceGetPageChildrenBranch env args
  | "confluence_get_page_ancestors" => confluenceGetPageAncestorsBranch env args
  | "confluence_get_comments" => confluenceGetCommentsBranch env args
  | "confluence_create_page" => confluenceCreatePageBranch env args
  | "confluence_update_page" => confluenceUpdatePageBranch env args
  | "confluence_delete_page" => confluenceDeletePageBranch env args
  | "confluence_attach_content" => confluenceAttachContentBranch env args
  | "jira_get_issue" => jiraGetIssueBranch env args
  | "jira_search" => jiraSearchBranch env args
  | "jira_get_project_issues" => jiraGetProjectIssuesBranch env args
  | "jira_get_epic_issues" => jiraGetEpicIssuesBranch env args
  | "jira_get_transitions" => jiraGetTransitionsBranch env args
  | "jira_get_worklog" => jiraGetWorklogBranch env args
  | "jira_download_attachments" => jiraDownloadAttachmentsBranch env args
  | "jira_get_agile_boards" => jiraGetAgileBoardsBranch env args
  | "jira_get_board_issues" => jiraGetBoardIssuesBranch env args
  | "jira_get_sprints_from_board" => jiraGetSprintsFromBoardBranch env args
  | "jira_get_sprint_issues" => jiraGetSprintIssuesBranch env args
  | "jira_create_issue" => jiraCreateIssueBranch env args
  | "jira_update_issue" => jiraUpdateIssueBranch env args
  | "jira_delete_issue" => jiraDeleteIssueBranch env args
  | "jira_add_comment" => jiraAddCommentBranch env args
  | "jira_add_worklog" => jiraAddWorklogBranch env args
  | "jira_link_to_epic" => jiraLinkToEpicBranch env args
  | "jira_transition_issue" => jiraTransitionIssueBranch env args
  | _ => (.error (valueError ("Unknown tool: " ++ name)), [])

/-- `JIRA_TOOLBOX.get_tool(name) or CONFLUENCE_TOOLBOX.get_tool(name)`. -/
def getToolByName (name : String) : Option ToolDefinition :=
  (JIRA_TOOLBOX.get_tool name).orElse (fun _ => CONFLUENCE_TOOLBOX.get_tool name)

/-- `call_tool` from `server.py`: resolve the tool (an unknown name raises
`ValueError` before the `try` block, so it escapes), then run the branch
under the outer `except Exception` which converts any exception into an
`Error: <message>` text result.  The first component is the value returned
to the protocol layer (`Except.error` meaning a propagated exception), the
second the trace of collaborator invocations. -/
def callTool (env : Env) (name : String) (arguments : Args) :
    Except PyErr (List TextContent) × List CollabCall :=
  match getToolByName name with
  | Option.none => (.error (valueError ("Unknown tool: " ++ name)), [])
  | some tool =>
    let out := dispatchBody env tool name arguments
    match out.1 with
    | .ok r => (.ok r, out.2)
    | .error e => (.ok [mkText ("Error: " ++ e.msg)], out.2)

/-- Quoted-string JSON literal without escapes, inner quotes, or commas. -/
def parseQuoted (l : List Char) : Option String :=
  match l with
  | '"' :: rest =>
    match rest.reverse with
    | '"' :: bodyRev =>
      let body := bodyRev.reverse
      if body.contains '"' || body.contains ',' || body.contains '\\' then Option.none
      else some (String.mk body)
    | _ => Option.none
  | _ => Option.none

/-- Modelled from the spec: the Python stdlib `json.loads` used by the
dispatcher for JSON-encoded sub-fields (the stdlib is outside the
repository).  The model covers the documents the dispatcher's callers
exercise — the empty object, flat arrays of plain string literals, plain
string literals, integers, `true`/`false`/`null` — and rejects everything
else; in particular it rejects every string that is not a JSON document,
as `json.loads` does. -/
def jsonLoadsModel (s : String) : Option Json :=
  match pyStripChars s.data with
  | [] => Option.none
  | t =>
    if t == ['\x7b', '\x7d'] then some (.obj [])
    else
      match t with
      | '[' :: rest =>
        match rest.reverse with
        | ']' :: innerRev =>
          let inner := innerRev.reverse
          if (pyStripChars inner).isEmpty then some (.arr [])
          else
            let items := (splitCommaChars inner).map (fun i => parseQuoted (pyStripChars i))
            if items.all Option.isSome then some (.arr ((items.filterMap id).map Json.str))
            else Option.none
        | _ => Option.none
      | '"' :: _ => (parseQuoted t).map Json.str
      | '+' :: _ => Option.none
      | _ =>
        if t == "true".data then some (.bool true)
        else if t == "false".data then some (.bool false)
        else if t == "null".data then some Json.null
        else
          match parseIntPy (String.mk t) with
          | some n => some (.num n)
          | Option.none => Option.none

/-- A collaborator oracle that answers every call with a fixed payload. -/
def collabOk : CollabCall → Except PyErr String := fun _ => .ok "payload"

/-- A concrete environment for witnesses: both areas configured, writes
allowed, stdlib modelled, and exactly `/exists.txt` present on disk. -/
def testEnv : Env where
  readOnly := false
  confluenceConfigured := true
  jiraConfigured := true
  collab := collabOk
  jsonLoads := jsonLoadsModel
  pathExists := fun p => p == "/exists.txt"

/-- `testEnv` with read-only mode enabled. -/
def testEnvRO : Env := { testEnv with readOnly := true }

/-- A collaborator oracle that fails every call with an `ApiError`. -/
def collabFail : CollabCall → Except PyErr String := fun _ => .error ⟨"ApiError", "boom"⟩

/-- `testEnv` with the failing collaborator oracle. -/
def testEnvFail : Env := { testEnv with collab := collabFail }

/-- Both traces of `call_tool` agree with the branch trace: the outer
`except` only rewrites the result, never the collaborator history. -/
theorem callTool_trace (env : Env) (name : String) (args : Args) (tool : ToolDefinition)
    (h : getToolByName name = some tool) :
    (callTool env name args).2 = (dispatchBody env tool name args).2 := by
  simp only [callTool, h]
  cases (dispatchBody env tool name args).1 <;> rfl

/-- The extraction loop on empty raw arguments yields exactly the declared
defaults, in property order. -/
theorem extractLoop_empty_raw (props : List (String × PropSchema)) :
    extractLoop [] props =
      props.filterMap (fun p => (p.2.default?).map (fun d => (p.1, d))) := by
  induction props with
  | nil => rfl
  | cons hd tl ih =>
    obtain ⟨p, sch⟩ := hd
    simp only [extractLoop, lookupArgOpt, List.filterMap_cons]
    cases sch.default? <;> simp [ih]

/-- C6: for every registry, listing in read-only mode contains no
write-flagged entry, listing with read-only off returns the full declared
catalog, and both listings preserve declaration order (they are sublists of
the catalog). -/
theorem c6_get_tools_filter (tb : Toolbox) (ro : Bool) :
    ((tb.get_tools true).all (fun t => !t.is_write_operation)) = true ∧
    tb.get_tools false = tb.tool_definitions ∧
    List.Sublist (tb.get_tools ro) tb.tool_definitions := by
  refine ⟨?_, ?_, ?_⟩
  · simp only [Toolbox.get_tools, List.all_eq_true]
    intro t ht
    have := List.of_mem_filter ht
    simpa using this
  · simp [Toolbox.get_tools]
  · exact List.filter_sublist _

/-- C10: `extract_arguments(None)` is the empty mapping with no defaults
populated, while `extract_arguments({})` carries every declared parameter
that has a default, set to that default, in declaration order. -/
theorem c10_none_vs_empty_arguments (t : ToolDefinition) :
    t.extract_arguments Option.none = [] ∧
    t.extract_arguments (some []) =
      t.properties.filterMap (fun p => (p.2.default?).map (fun d => (p.1, d))) := by
  exact ⟨rfl, extractLoop_empty_raw t.properties⟩

/-- C8: boolean coercion passes booleans through, matches strings
case-insensitively (via lowercasing) against the truthy set
`{"true","yes","1","t","y"}`, converts every other type by generic Python
truthiness, and in particular maps `"YES"`, `"0"`, `False` to
`true`, `false`, `false`. -/
theorem c8_boolean_coercion :
    (∀ b : Bool, ToolDefinition.processBooleanValue (.bool b) = b) ∧
    (∀ s : String,
      ToolDefinition.processBooleanValue (.str s) =
        decide (pyLower s ∈ ["true", "yes", "1", "t", "y"])) ∧
    (∀ n : Int, ToolDefinition.processBooleanValue (.int n) = truthy (.int n)) ∧
    (∀ q : Rat, ToolDefinition.processBooleanValue (.float q) = truthy (.float q)) ∧
    (∀ l : List Value, ToolDefinition.processBooleanValue (.list l) = truthy (.list l)) ∧
    ToolDefinition.processBooleanValue Value.none = truthy Value.none ∧
    ToolDefinition.processBooleanValue (.str "YES") = true ∧
    ToolDefinition.processBooleanValue (.str "0") = false ∧
    ToolDefinition.processBooleanValue (.bool false) = false := by
  refine ⟨fun b => rfl, fun s => ?_, fun n => rfl, fun q => rfl, fun l => rfl, rfl, rfl, rfl, rfl⟩
  simp [ToolDefinition.processBooleanValue, truthyStrings, List.contains, List.elem_eq_mem]

/-- Does a tool declare no default for any of its required parameters? -/
def requiredHasNoDefault (t : ToolDefinition) : Bool :=
  t.required.all (fun p => t.properties.all (fun x => !(x.1 == p) || x.2.default?.isNone))

/-- Across both declared catalogs, no required parameter carries a default. -/
theorem catalog_required_no_default :
    (JIRA_TOOLS ++ CONFLUENCE_TOOLS).all requiredHasNoDefault = true := by decide

/-- If a parameter is absent from the raw arguments and none of its property
declarations carries a default, the extraction loop omits it. -/
theorem extractLoop_omits_defaultless (raw : Args) (props : List (String × PropSchema))
    (p : String) (hraw : lookupArgOpt raw p = Option.none)
    (hdef : ∀ sch, (p, sch) ∈ props → sch.default? = Option.none) :
    lookupArgOpt (extractLoop raw props) p = Option.none := by
  induction props with
  | nil => rfl
  | cons hd tl ih =>
    obtain ⟨q, sch⟩ := hd
    have htl : ∀ sch, (p, sch) ∈ tl → sch.default? = Option.none :=
      fun sch h => hdef sch (List.mem_cons_of_mem _ h)
    by_cases hq : q = p
    · subst hq
      have hd0 : sch.default? = Option.none := hdef sch (List.mem_cons_self _ _)
      simp only [extractLoop, hraw, hd0]
      exact ih htl
    · have hqb : (q == p) = false := by simp [hq]
      simp only [extractLoop]
      cases h1 : lookupArgOpt raw q
      · cases h2 : sch.default?
        · exact ih htl
        · simpa [lookupArgOpt, hqb] using ih htl
      · simpa [lookupArgOpt, hqb] using ih htl

/-- C4: for every tool schema of the declared catalogs and every parameter
in its required set, no default is consulted for that parameter: when the
required parameter is absent from the raw arguments, the coerced arguments
omit it rather than filling it from a default (indeed no required parameter
of the catalogs declares one). -/
theorem c4_required_params_have_no_default_fallback
    (t : ToolDefinition) (p : String) (raw : Args)
    (hcat : t ∈ JIRA_TOOLS ++ CONFLUENCE_TOOLS)
    (hreq : p ∈ t.required)
    (hraw : lookupArgOpt raw p = Option.none) :
    (∀ sch, (p, sch) ∈ t.properties → sch.default? = Option.none) ∧
    lookupArgOpt (t.extract_arguments (some raw)) p = Option.none := by
  have hall := List.all_eq_true.mp catalog_required_no_default t hcat
  have hreqall := List.all_eq_true.mp hall p hreq
  have hdef : ∀ sch, (p, sch) ∈ t.properties → sch.default? = Option.none := by
    intro sch hmem
    have hx := List.all_eq_true.mp hreqall (p, sch) hmem
    simpa [Option.isNone_iff_eq_none] using hx
  exact ⟨hdef, extractLoop_omits_defaultless raw t.properties p hraw hdef⟩

/-- C4 witness: `jira_update_issue` requires `fields`; with `fields` absent
from the raw arguments the coerced arguments omit it. -/
theorem c4_required_params_have_no_default_fallback_witness :
    (∀ sch, ("fields", sch) ∈ jiraUpdateIssueDef.properties → sch.default? = Option.none) ∧
    lookupArgOpt (jiraUpdateIssueDef.extract_arguments (some [])) "fields" = Option.none :=
  c4_required_params_have_no_default_fallback jiraUpdateIssueDef "fields" []
    (by simp [JIRA_TOOLS]) (by simp [jiraUpdateIssueDef]) rfl

/-- C7 (amended): for every parameter descriptor declared `type: number`
with `minimum: 1` and `maximum: 50` (as every 1-to-50 limit descriptor of
the catalogs is), coercion clamps the sampled values into `[1, 50]`; the
string `"30"` is parsed by the float path of `_process_numeric_value` and
yields the float `30.0` (numerically 30), not the integer `30`. -/
theorem c7_min_max_clamping (sch : PropSchema)
    (h1 : sch.type? = some "number") (h2 : sch.minimum? = some 1)
    (h3 : sch.maximum? = some 50) :
    ToolDefinition.processNumericValue (.int (-5)) sch = .int 1 ∧
    ToolDefinition.processNumericValue (.int 0) sch = .int 1 ∧
    ToolDefinition.processNumericValue (.int 1) sch = .int 1 ∧
    ToolDefinition.processNumericValue (.int 25) sch = .int 25 ∧
    ToolDefinition.processNumericValue (.int 50) sch = .int 50 ∧
    ToolDefinition.processNumericValue (.int 999) sch = .int 50 ∧
    ToolDefinition.processNumericValue (.str "30") sch = .float 30 := by
  have h30 : parseFloatPy "30" = some 30 := by rfl
  have hne : (pyStrip "30" != "") = true := by rfl
  have l1 : ((-5 : Rat) < 1) = True := by norm_num
  have l2 : ((0 : Rat) < 1) = True := by norm_num
  have l3 : ((1 : Rat) < 1) = False := by norm_num
  have l4 : ((25 : Rat) < 1) = False := by norm_num
  have l5 : ((50 : Rat) < 1) = False := by norm_num
  have l6 : ((999 : Rat) < 1) = False := by norm_num
  have l7 : ((30 : Rat) < 1) = False := by norm_num
  have g1 : ((50 : Rat) < 1) = False := by norm_num
  have g2 : ((50 : Rat) < 25) = False := by norm_num
  have g3 : ((50 : Rat) < 50) = False := by norm_num
  have g4 : ((50 : Rat) < 999) = True := by norm_num
  have g5 : ((50 : Rat) < 30) = False := by norm_num
  refine ⟨?_, ?_, ?_, ?_, ?_, ?_, ?_⟩ <;>
    simp [ToolDefinition.processNumericValue, h1, h2, h3, numValue?, h30, hne,
      l1, l2, l3, l4, l5, l6, l7, g1, g2, g3, g4, g5]

/-- C7 counterexample: coercing the string `"30"` for the
`confluence_search` limit parameter yields the float `30.0`, which is not
the integer `30`. -/
theorem c7_string_thirty_becomes_float :
    lookupArgOpt (confluenceSearchDef.extract_arguments (some [("limit", .str "30")]))
      "limit" = some (.float 30) ∧
    Value.float 30 ≠ Value.int 30 :=
  ⟨rfl, fun h => Value.noConfusion h⟩

/-- C7 witness: the clamping conclusions evaluated at the literal
`confluence_search` limit descriptor. -/
theorem c7_min_max_clamping_witness :
    ToolDefinition.processNumericValue (.int (-5))
      { type? := some "number", default? := some (.int 10),
        minimum? := some 1, maximum? := some 50 } = .int 1 ∧
    ToolDefinition.processNumericValue (.int 0)
      { type? := some "number", default? := some (.int 10),
        minimum? := some 1, maximum? := some 50 } = .int 1 ∧
    ToolDefinition.processNumericValue (.int 1)
      { type? := some "number", default? := some (.int 10),
        minimum? := some 1, maximum? := some 50 } = .int 1 ∧
    ToolDefinition.processNumericValue (.int 25)
      { type? := some "number", default? := some (.int 10),
        minimum? := some 1, maximum? := some 50 } = .int 25 ∧
    ToolDefinition.processNumericValue (.int 50)
      { type? := some "number", default? := some (.int 10),
        minimum? := some 1, maximum? := some 50 } = .int 50 ∧
    ToolDefinition.processNumericValue (.int 999)
      { type? := some "number", default? := some (.int 10),
        minimum? := some 1, maximum? := some 50 } = .int 50 ∧
    ToolDefinition.processNumericValue (.str "30")
      { type? := some "number", default? := some (.int 10),
        minimum? := some 1, maximum? := some 50 } = .float 30 :=
  c7_min_max_clamping _ rfl rfl rfl

/-- `confluence_search` limit clamping at the dispatcher. -/
theorem limitClamp_confluence_search (env : Env) (v : Int)
    (hc : env.confluenceConfigured = true) :
    (callTool env "confluence_search" [("query", .str ""), ("limit", .int v)]).2.map
      CollabCall.limitArg = [some (min v 50)] ∧
    (callTool env "confluence_search" [("query", .str "")]).2.map
      CollabCall.limitArg = [some 10] := by
  have hres : getToolByName "confluence_search" = some confluenceSearchDef := rfl
  constructor
  · rw [callTool_trace env _ _ _ hres]
    have hd : dispatchBody env confluenceSearchDef "confluence_search"
        [("query", .str ""), ("limit", .int v)] =
        confluenceSearchBranch env [("query", .str ""), ("limit", .int v)] := rfl
    rw [hd]
    rcases hcol : env.collab (CollabCall.confluenceSearch (.str "") (min v 50) Value.none)
      with e | p <;>
      simp [confluenceSearchBranch, hc, getArg, pyIntE, truthy, hcol, CollabCall.limitArg]
  · rw [callTool_trace env _ _ _ hres]
    have hd : dispatchBody env confluenceSearchDef "confluence_search" [("query", .str "")] =
        confluenceSearchBranch env [("query", .str "")] := rfl
    rw [hd]
    rcases hcol : env.collab (CollabCall.confluenceSearch (.str "") 10 Value.none)
      with e | p <;>
      simp [confluenceSearchBranch, hc, getArg, pyIntE, truthy, hcol, CollabCall.limitArg]

/-- `confluence_get_page_children` limit clamping at the dispatcher. -/
theorem limitClamp_confluence_get_page_children (env : Env) (v : Int)
    (hc : env.confluenceConfigured = true) :
    (callTool env "confluence_get_page_children" [("limit", .int v)]).2.map
      CollabCall.limitArg = [some (min v 50)] ∧
    (callTool env "confluence_get_page_children" []).2.map
      CollabCall.limitArg = [some 25] := by
  have hres : getToolByName "confluence_get_page_children" =
      some confluenceGetPageChildrenDef := rfl
  constructor
  · rw [callTool_trace env _ _ _ hres]
    have hd : dispatchBody env confluenceGetPageChildrenDef "confluence_get_page_children"
        [("limit", .int v)] =
        confluenceGetPageChildrenBranch env [("limit", .int v)] := rfl
    rw [hd]
    rcases hcol : env.collab (CollabCall.confluenceGetPageChildren Value.none (.int 0)
        (min v 50) (.str "version") (.bool true)) with e | p <;>
      simp [confluenceGetPageChildrenBranch, hc, getArg, pyIntE, truthy, hcol,
        CollabCall.limitArg]
  · rw [callTool_trace env _ _ _ hres]
    have hd : dispatchBody env confluenceGetPageChildrenDef "confluence_get_page_children"
        [] = confluenceGetPageChildrenBranch env [] := rfl
    rw [hd]
    rcases hcol : env.collab (CollabCall.confluenceGetPageChildren Value.none (.int 0)
        25 (.str "version") (.bool true)) with e | p <;>
      simp [confluenceGetPageChildrenBranch, hc, getArg, pyIntE, truthy, hcol,
        CollabCall.limitArg]

/-- `jira_search` limit clamping at the dispatcher. -/
theorem limitClamp_jira_search (env : Env) (v : Int) (hj : env.jiraConfigured = true) :
    (callTool env "jira_search" [("jql", .str "x"), ("limit", .int v)]).2.map
      CollabCall.limitArg = [some (min v 50)] ∧
    (callTool env "jira_search" [("jql", .str "x")]).2.map
      CollabCall.limitArg = [some 10] := by
  have hres : getToolByName "jira_search" = some jiraSearchDef := rfl
  constructor
  · rw [callTool_trace env _ _ _ hres]
    have hd : dispatchBody env jiraSearchDef "jira_search"
        [("jql", .str "x"), ("limit", .int v)] =
        jiraSearchBranch env [("jql", .str "x"), ("limit", .int v)] := rfl
    rw [hd]
    rcases hcol : env.collab (CollabCall.jiraSearchIssues (.str "x")
        (.str defaultIssueFields) (min v 50) 0 Value.none) with e | p <;>
      simp [jiraSearchBranch, hj, getArg, pyIntE, hcol, CollabCall.limitArg]
  · rw [callTool_trace env _ _ _ hres]
    have hd : dispatchBody env jiraSearchDef "jira_search" [("jql", .str "x")] =
        jiraSearchBranch env [("jql", .str "x")] := rfl
    rw [hd]
    rcases hcol : env.collab (CollabCall.jiraSearchIssues (.str "x")
        (.str defaultIssueFields) 10 0 Value.none) with e | p <;>
      simp [jiraSearchBranch, hj, getArg, pyIntE, hcol, CollabCall.limitArg]

/-- `jira_get_project_issues` limit clamping at the dispatcher. -/
theorem limitClamp_jira_get_project_issues (env : Env) (v : Int)
    (hj : env.jiraConfigured = true) :
    (callTool env "jira_get_project_issues" [("limit", .int v)]).2.map
      CollabCall.limitArg = [some (min v 50)] ∧
    (callTool env "jira_get_project_issues" []).2.map
      CollabCall.limitArg = [some 10] := by
  have hres : getToolByName "jira_get_project_issues" = some jiraGetProjectIssuesDef := rfl
  constructor
  · rw [callTool_trace env _ _ _ hres]
    have hd : dispatchBody env jiraGetProjectIssuesDef "jira_get_project_issues"
        [("limit", .int v)] = jiraGetProjectIssuesBranch env [("limit", .int v)] := rfl
    rw [hd]
    rcases hcol : env.collab (CollabCall.jiraGetProjectIssues Value.none 0 (min v 50))
      with e | p <;>
      simp [jiraGetProjectIssuesBranch, hj, getArg, pyIntE, hcol, CollabCall.limitArg]
  · rw [callTool_trace env _ _ _ hres]
    have hd : dispatchBody env jiraGetProjectIssuesDef "jira_get_project_issues" [] =
        jiraGetProjectIssuesBranch env [] := rfl
    rw [hd]
    rcases hcol : env.collab (CollabCall.jiraGetProjectIssues Value.none 0 10) with e | p <;>
      simp [jiraGetProjectIssuesBranch, hj, getArg, pyIntE, hcol, CollabCall.limitArg]

/-- `jira_get_epic_issues` limit clamping at the dispatcher. -/
theorem limitClamp_jira_get_epic_issues (env : Env) (v : Int)
    (hj : env.jiraConfigured = true) :
    (callTool env "jira_get_epic_issues" [("limit", .int v)]).2.map
      CollabCall.limitArg = [some (min v 50)] ∧
    (callTool env "jira_get_epic_issues" []).2.map CollabCall.limitArg = [some 10] := by
  have hres : getToolByName "jira_get_epic_issues" = some jiraGetEpicIssuesDef := rfl
  constructor
  · rw [callTool_trace env _ _ _ hres]
    have hd : dispatchBody env jiraGetEpicIssuesDef "jira_get_epic_issues"
        [("limit", .int v)] = jiraGetEpicIssuesBranch env [("limit", .int v)] := rfl
    rw [hd]
    rcases hcol : env.collab (CollabCall.jiraGetEpicIssues Value.none 0 (min v 50))
      with e | p <;>
      simp [jiraGetEpicIssuesBranch, hj, getArg, pyIntE, hcol, CollabCall.limitArg]
  · rw [callTool_trace env _ _ _ hres]
    have hd : dispatchBody env jiraGetEpicIssuesDef "jira_get_epic_issues" [] =
        jiraGetEpicIssuesBranch env [] := rfl
    rw [hd]
    rcases hcol : env.collab (CollabCall.jiraGetEpicIssues Value.none 0 10) with e | p <;>
      simp [jiraGetEpicIssuesBranch, hj, getArg, pyIntE, hcol, CollabCall.limitArg]

/-- `jira_get_agile_boards` limit clamping at the dispatcher. -/
theorem limitClamp_jira_get_agile_boards (env : Env) (v : Int)
    (hj : env.jiraConfigured = true) :
    (callTool env "jira_get_agile_boards" [("limit", .int v)]).2.map
      CollabCall.limitArg = [some (min v 50)] ∧
    (callTool env "jira_get_agile_boards" []).2.map CollabCall.limitArg = [some 10] := by
  have hres : getToolByName "jira_get_agile_boards" = some jiraGetAgileBoardsDef := rfl
  constructor
  · rw [callTool_trace env _ _ _ hres]
    have hd : dispatchBody env jiraGetAgileBoardsDef "jira_get_agile_boards"
        [("limit", .int v)] = jiraGetAgileBoardsBranch env [("limit", .int v)] := rfl
    rw [hd]
    rcases hcol : env.collab (CollabCall.jiraGetAgileBoards Value.none Value.none Value.none
        0 (min v 50)) with e | p <;>
      simp [jiraGetAgileBoardsBranch, hj, getArg, pyIntE, hcol, CollabCall.limitArg]
  · rw [callTool_trace env _ _ _ hres]
    have hd : dispatchBody env jiraGetAgileBoardsDef "jira_get_agile_boards" [] =
        jiraGetAgileBoardsBranch env [] := rfl
    rw [hd]
    rcases hcol : env.collab (CollabCall.jiraGetAgileBoards Value.none Value.none Value.none
        0 10) with e | p <;>
      simp [jiraGetAgileBoardsBranch, hj, getArg, pyIntE, hcol, CollabCall.limitArg]

/-- `jira_get_board_issues` limit clamping at the dispatcher. -/
theorem limitClamp_jira_get_board_issues (env : Env) (v : Int)
    (hj : env.jiraConfigured = true) :
    (callTool env "jira_get_board_issues" [("limit", .int v)]).2.map
      CollabCall.limitArg = [some (min v 50)] ∧
    (callTool env "jira_get_board_issues" []).2.map CollabCall.limitArg = [some 10] := by
  have hres : getToolByName "jira_get_board_issues" = some jiraGetBoardIssuesDef := rfl
  constructor
  · rw [callTool_trace env _ _ _ hres]
    have hd : dispatchBody env jiraGetBoardIssuesDef "jira_get_board_issues"
        [("limit", .int v)] = jiraGetBoardIssuesBranch env [("limit", .int v)] := rfl
    rw [hd]
    rcases hcol : env.collab (CollabCall.jiraGetBoardIssues Value.none Value.none
        (.str "*all") 0 (min v 50) (.str "version")) with e | p <;>
      simp [jiraGetBoardIssuesBranch, hj, getArg, pyIntE, hcol, CollabCall.limitArg]
  · rw [callTool_trace env _ _ _ hres]
    have hd : dispatchBody env jiraGetBoardIssuesDef "jira_get_board_issues" [] =
        jiraGetBoardIssuesBranch env [] := rfl
    rw [hd]
    rcases hcol : env.collab (CollabCall.jiraGetBoardIssues Value.none Value.none
        (.str "*all") 0 10 (.str "version")) with e | p <;>
      simp [jiraGetBoardIssuesBranch, hj, getArg, pyIntE, hcol, CollabCall.limitArg]

/-- `jira_get_sprints_from_board` limit clamping at the dispatcher. -/
theorem limitClamp_jira_get_sprints_from_board (env : Env) (v : Int)
    (hj : env.jiraConfigured = true) :
    (callTool env "jira_get_sprints_from_board" [("limit", .int v)]).2.map
      CollabCall.limitArg = [some (min v 50)] ∧
    (callTool env "jira_get_sprints_from_board" []).2.map
      CollabCall.limitArg = [some 10] := by
  have hres : getToolByName "jira_get_sprints_from_board" =
      some jiraGetSprintsFromBoardDef := rfl
  constructor
  · rw [callTool_trace env _ _ _ hres]
    have hd : dispatchBody env jiraGetSprintsFromBoardDef "jira_get_sprints_from_board"
        [("limit", .int v)] = jiraGetSprintsFromBoardBranch env [("limit", .int v)] := rfl
    rw [hd]
    rcases hcol : env.collab (CollabCall.jiraGetSprintsFromBoard Value.none (.str "active")
        0 (min v 50)) with e | p <;>
      simp [jiraGetSprintsFromBoardBranch, hj, getArg, pyIntE, hcol, CollabCall.limitArg]
  · rw [callTool_trace env _ _ _ hres]
    have hd : dispatchBody env jiraGetSprintsFromBoardDef "jira_get_sprints_from_board" [] =
        jiraGetSprintsFromBoardBranch env [] := rfl
    rw [hd]
    rcases hcol : env.collab (CollabCall.jiraGetSprintsFromBoard Value.none (.str "active")
        0 10) with e | p <;>
      simp [jiraGetSprintsFromBoardBranch, hj, getArg, pyIntE, hcol, CollabCall.limitArg]

/-- `jira_get_sprint_issues` limit clamping at the dispatcher. -/
theorem limitClamp_jira_get_sprint_issues (env : Env) (v : Int)
    (hj : env.jiraConfigured = true) :
    (callTool env "jira_get_sprint_issues" [("limit", .int v)]).2.map
      CollabCall.limitArg = [some (min v 50)] ∧
    (callTool env "jira_get_sprint_issues" []).2.map CollabCall.limitArg = [some 10] := by
  have hres : getToolByName "jira_get_sprint_issues" = some jiraGetSprintIssuesDef := rfl
  constructor
  · rw [callTool_trace env _ _ _ hres]
    have hd : dispatchBody env jiraGetSprintIssuesDef "jira_get_sprint_issues"
        [("limit", .int v)] = jiraGetSprintIssuesBranch env [("limit", .int v)] := rfl
    rw [hd]
    rcases hcol : env.collab (CollabCall.jiraGetSprintIssues Value.none (.str "*all")
        0 (min v 50)) with e | p <;>
      simp [jiraGetSprintIssuesBranch, hj, getArg, pyIntE, hcol, CollabCall.limitArg]
  · rw [callTool_trace env _ _ _ hres]
    have hd : dispatchBody env jiraGetSprintIssuesDef "jira_get_sprint_issues" [] =
        jiraGetSprintIssuesBranch env [] := rfl
    rw [hd]
    rcases hcol : env.collab (CollabCall.jiraGetSprintIssues Value.none (.str "*all")
        0 10) with e | p <;>
      simp [jiraGetSprintIssuesBranch, hj, getArg, pyIntE, hcol, CollabCall.limitArg]

/-- C2 (amended): for every operation whose limit parameter is declared
`minimum=1, maximum=50`, the dispatcher computes the effective limit as
`min(int(limit), 50)` — a caller value above 50 is clamped down to 50 and an
omitted value falls back to the branch default (10, or 25 for
`confluence_get_page_children`), but a caller value below 1 is passed to the
collaborator unclamped (the declared minimum is not enforced on the dispatch
path, which never invokes `extract_arguments`). -/
theorem c2_limit_clamped_above_and_default (env : Env) (v : Int)
    (hc : env.confluenceConfigured = true) (hj : env.jiraConfigured = true) :
    ((callTool env "confluence_search"
        [("query", .str ""), ("limit", .int v)]).2.map CollabCall.limitArg
      = [some (min v 50)] ∧
     (callTool env "confluence_search" [("query", .str "")]).2.map CollabCall.limitArg
      = [some 10]) ∧
    ((callTool env "confluence_get_page_children" [("limit", .int v)]).2.map
        CollabCall.limitArg = [some (min v 50)] ∧
     (callTool env "confluence_get_page_children" []).2.map CollabCall.limitArg
      = [some 25]) ∧
    ((callTool env "jira_search" [("jql", .str "x"), ("limit", .int v)]).2.map
        CollabCall.limitArg = [some (min v 50)] ∧
     (callTool env "jira_search" [("jql", .str "x")]).2.map CollabCall.limitArg
      = [some 10]) ∧
    ((callTool env "jira_get_project_issues" [("limit", .int v)]).2.map
        CollabCall.limitArg = [some (min v 50)] ∧
     (callTool env "jira_get_project_issues" []).2.map CollabCall.limitArg = [some 10]) ∧
    ((callTool env "jira_get_epic_issues" [("limit", .int v)]).2.map
        CollabCall.limitArg = [some (min v 50)] ∧
     (callTool env "jira_get_epic_issues" []).2.map CollabCall.limitArg = [some 10]) ∧
    ((callTool env "jira_get_agile_boards" [("limit", .int v)]).2.map
        CollabCall.limitArg = [some (min v 50)] ∧
     (callTool env "jira_get_agile_boards" []).2.map CollabCall.limitArg = [some 10]) ∧
    ((callTool env "jira_get_board_issues" [("limit", .int v)]).2.map
        CollabCall.limitArg = [some (min v 50)] ∧
     (callTool env "jira_get_board_issues" []).2.map CollabCall.limitArg = [some 10]) ∧
    ((callTool env "jira_get_sprints_from_board" [("limit", .int v)]).2.map
        CollabCall.limitArg = [some (min v 50)] ∧
     (callTool env "jira_get_sprints_from_board" []).2.map CollabCall.limitArg
      = [some 10]) ∧
    ((callTool env "jira_get_sprint_issues" [("limit", .int v)]).2.map
        CollabCall.limitArg = [some (min v 50)] ∧
     (callTool env "jira_get_sprint_issues" []).2.map CollabCall.limitArg = [some 10]) :=
  ⟨limitClamp_confluence_search env v hc,
   limitClamp_confluence_get_page_children env v hc,
   limitClamp_jira_search env v hj,
   limitClamp_jira_get_project_issues env v hj,
   limitClamp_jira_get_epic_issues env v hj,
   limitClamp_jira_get_agile_boards env v hj,
   limitClamp_jira_get_board_issues env v hj,
   limitClamp_jira_get_sprints_from_board env v hj,
   limitClamp_jira_get_sprint_issues env v hj⟩

/-- C2 counterexample: `jira_search` dispatched with `limit = 0` sends the
collaborator an effective limit of `0`, which lies outside `[1, 50]` — the
declared minimum is not enforced. -/
theorem c2_below_minimum_not_clamped :
    (callTool testEnv "jira_search" [("jql", .str "x"), ("limit", .int 0)]).2.map
      CollabCall.limitArg = [some 0] ∧ (0 : Int) < 1 :=
  ⟨rfl, by decide⟩

/-- C2 witness: `jira_search` dispatched with `limit = 500` reaches the
collaborator with `min 500 50 = 50`. -/
theorem c2_limit_clamped_above_and_default_witness :
    (callTool testEnv "jira_search" [("jql", .str "x"), ("limit", .int 500)]).2.map
      CollabCall.limitArg = [some (min 500 50)] ∧ min (500 : Int) 50 = 50 :=
  ⟨(c2_limit_clamped_above_and_default testEnv 500 rfl rfl).2.2.1.1, by decide⟩

/-- C3: with read-only mode active and the owning product-area collaborator
configured, every write-flagged tool invoked by name returns exactly the
fixed "not available in read-only mode" text naming the operation, and the
collaborator trace is empty — for any argument mapping. -/
theorem c3_read_only_blocks_write_tools (env : Env) (args : Args)
    (hro : env.readOnly = true) (hc : env.confluenceConfigured = true)
    (hj : env.jiraConfigured = true) :
    callTool env "confluence_create_page" args =
      (.ok (readOnlyResponse "confluence_create_page"), []) ∧
    callTool env "confluence_update_page" args =
      (.ok (readOnlyResponse "confluence_update_page"), []) ∧
    callTool env "confluence_delete_page" args =
      (.ok (readOnlyResponse "confluence_delete_page"), []) ∧
    callTool env "confluence_attach_content" args =
      (.ok (readOnlyResponse "confluence_attach_content"), []) ∧
    callTool env "jira_create_issue" args =
      (.ok (readOnlyResponse "jira_create_issue"), []) ∧
    callTool env "jira_update_issue" args =
      (.ok (readOnlyResponse "jira_update_issue"), []) ∧
    callTool env "jira_delete_issue" args =
      (.ok (readOnlyResponse "jira_delete_issue"), []) ∧
    callTool env "jira_add_comment" args =
      (.ok (readOnlyResponse "jira_add_comment"), []) ∧
    callTool env "jira_add_worklog" args =
      (.ok (readOnlyResponse "jira_add_worklog"), []) ∧
    callTool env "jira_link_to_epic" args =
      (.ok (readOnlyResponse "jira_link_to_epic"), []) ∧
    callTool env "jira_transition_issue" args =
      (.ok (readOnlyResponse "jira_transition_issue"), []) := by
  refine ⟨?_, ?_, ?_, ?_, ?_, ?_, ?_, ?_, ?_, ?_, ?_⟩
  · have hres : getToolByName "confluence_create_page" = some confluenceCreatePageDef := rfl
    have hd : dispatchBody env confluenceCreatePageDef "confluence_create_page" args =
        confluenceCreatePageBranch env args := rfl
    have hb : confluenceCreatePageBranch env args =
        (.ok (readOnlyResponse "confluence_create_page"), []) := by
      simp [confluenceCreatePageBranch, hro, hc]
    simp [callTool, hres, hd, hb]
  · have hres : getToolByName "confluence_update_page" = some confluenceUpdatePageDef := rfl
    have hd : dispatchBody env confluenceUpdatePageDef "confluence_update_page" args =
        confluenceUpdatePageBranch env args := rfl
    have hb : confluenceUpdatePageBranch env args =
        (.ok (readOnlyResponse "confluence_update_page"), []) := by
      simp [confluenceUpdatePageBranch, hro, hc]
    simp [callTool, hres, hd, hb]
  · have hres : getToolByName "confluence_delete_page" = some confluenceDeletePageDef := rfl
    have hd : dispatchBody env confluenceDeletePageDef "confluence_delete_page" args =
        confluenceDeletePageBranch env args := rfl
    have hb : confluenceDeletePageBranch env args =
        (.ok (readOnlyResponse "confluence_delete_page"), []) := by
      simp [confluenceDeletePageBranch, hro, hc]
    simp [callTool, hres, hd, hb]
  · have hres : getToolByName "confluence_attach_content" =
        some confluenceAttachContentDef := rfl
    have hd : dispatchBody env confluenceAttachContentDef "confluence_attach_content" args =
        confluenceAttachContentBranch env args := rfl
    have hb : confluenceAttachContentBranch env args =
        (.ok (readOnlyResponse "confluence_attach_content"), []) := by
      simp [confluenceAttachContentBranch, hro, hc]
    simp [callTool, hres, hd, hb]
  · have hres : getToolByName "jira_create_issue" = some jiraCreateIssueDef := rfl
    have hd : dispatchBody env jiraCreateIssueDef "jira_create_issue" args =
        jiraCreateIssueBranch env args := rfl
    have hb : jiraCreateIssueBranch env args =
        (.ok (readOnlyResponse "jira_create_issue"), []) := by
      simp [jiraCreateIssueBranch, hro, hj]
    simp [callTool, hres, hd, hb]
  · have hres : getToolByName "jira_update_issue" = some jiraUpdateIssueDef := rfl
    have hd : dispatchBody env jiraUpdateIssueDef "jira_update_issue" args =
        jiraUpdateIssueBranch env args := rfl
    have hb : jiraUpdateIssueBranch env args =
        (.ok (readOnlyResponse "jira_update_issue"), []) := by
      simp [jiraUpdateIssueBranch, hro, hj]
    simp [callTool, hres, hd, hb]
  · have hres : getToolByName "jira_delete_issue" = some jiraDeleteIssueDef := rfl
    have hd : dispatchBody env jiraDeleteIssueDef "jira_delete_issue" args =
        jiraDeleteIssueBranch env args := rfl
    have hb : jiraDeleteIssueBranch env args =
        (.ok (readOnlyResponse "jira_delete_issue"), []) := by
      simp [jiraDeleteIssueBranch, hro, hj]
    simp [callTool, hres, hd, hb]
  · have hres : getToolByName "jira_add_comment" = some jiraAddCommentDef := rfl
    have hd : dispatchBody env jiraAddCommentDef "jira_add_comment" args =
        jiraAddCommentBranch env args := rfl
    have hb : jiraAddCommentBranch env args =
        (.ok (readOnlyResponse "jira_add_comment"), []) := by
      simp [jiraAddCommentBranch, hro, hj]
    simp [callTool, hres, hd, hb]
  · have hres : getToolByName "jira_add_worklog" = some jiraAddWorklogDef := rfl
    have hd : dispatchBody env jiraAddWorklogDef "jira_add_worklog" args =
        jiraAddWorklogBranch env args := rfl
    have hb : jiraAddWorklogBranch env args =
        (.ok (readOnlyResponse "jira_add_worklog"), []) := by
      simp [jiraAddWorklogBranch, hro, hj]
    simp [callTool, hres, hd, hb]
  · have hres : getToolByName "jira_link_to_epic" = some jiraLinkToEpicDef := rfl
    have hd : dispatchBody env jiraLinkToEpicDef "jira_link_to_epic" args =
        jiraLinkToEpicBranch env args := rfl
    have hb : jiraLinkToEpicBranch env args =
        (.ok (readOnlyResponse "jira_link_to_epic"), []) := by
      simp [jiraLinkToEpicBranch, hro, hj]
    simp [callTool, hres, hd, hb]
  · have hres : getToolByName "jira_transition_issue" = some jiraTransitionIssueDef := rfl
    have hd : dispatchBody env jiraTransitionIssueDef "jira_transition_issue" args =
        jiraTransitionIssueBranch env args := rfl
    have hb : jiraTransitionIssueBranch env args =
        (.ok (readOnlyResponse "jira_transition_issue"), []) := by
      simp [jiraTransitionIssueBranch, hro, hj]
    simp [callTool, hres, hd, hb]

/-- C3 witness: `jira_create_issue` invoked under `testEnvRO` returns the
fixed read-only text with an empty collaborator trace. -/
theorem c3_read_only_blocks_write_tools_witness :
    callTool testEnvRO "jira_create_issue" [] =
      (.ok (readOnlyResponse "jira_create_issue"), []) :=
  (c3_read_only_blocks_write_tools testEnvRO [] rfl rfl rfl).2.2.2.2.1

/-- C5 counterexample: the empty string supplied for `fields` is not a JSON
document (the modelled `json.loads` rejects it, as the stdlib raises
`JSONDecodeError` on it), yet the dispatcher's truthiness guard skips
parsing entirely: no invalid-JSON fault is signalled and the collaborator is
invoked with an empty field object. -/
theorem c5_empty_string_bypasses_json_check :
    jsonLoadsModel "" = Option.none ∧
    callTool testEnv "jira_update_issue"
      [("issue_key", .str "PROJ-1"), ("fields", .str "")] =
      (.ok [mkText "Issue updated successfully:\npayload"],
       [CollabCall.jiraUpdateIssue (.str "PROJ-1") [] []]) :=
  ⟨rfl, rfl⟩

/-- C5 (amended): for every dispatch of `jira_update_issue` (`fields` or
`additional_fields`), `jira_create_issue` (`additional_fields`) or
`jira_transition_issue` (`fields`) whose supplied JSON-encoded sub-field is
a non-empty string that fails to parse, the result is the
`Error: Invalid JSON in <field>: Invalid JSON format` text naming the
offending field — distinguishable from a generic collaborator failure — and
the collaborator trace is empty; an empty supplied string is instead
treated as absent by the truthiness guard and parsed not at all. -/
theorem c5_invalid_json_names_field_and_skips_collaborator (env : Env) (s : String)
    (hj : env.jiraConfigured = true) (hro : env.readOnly = false)
    (hs : s ≠ "") (hbad : env.jsonLoads s = Option.none) :
    callTool env "jira_update_issue"
      [("issue_key", .str "PROJ-1"), ("fields", .str s)] =
      (.ok [mkText "Error: Invalid JSON in fields: Invalid JSON format"], []) ∧
    callTool env "jira_update_issue"
      [("issue_key", .str "PROJ-1"), ("additional_fields", .str s)] =
      (.ok [mkText "Error: Invalid JSON in additional_fields: Invalid JSON format"], []) ∧
    callTool env "jira_create_issue"
      [("project_key", .str "P"), ("summary", .str "S"), ("issue_type", .str "Task"),
       ("additional_fields", .str s)] =
      (.ok [mkText "Error: Invalid JSON in additional_fields: Invalid JSON format"], []) ∧
    callTool env "jira_transition_issue"
      [("issue_key", .str "PROJ-1"), ("transition_id", .str "11"), ("fields", .str s)] =
      (.ok [mkText "Error: Invalid JSON in fields: Invalid JSON format"], []) := by
  have h11 : strIsDigit "11" = true := rfl
  have hp11 : parseIntPy "11" = some 11 := rfl
  refine ⟨?_, ?_, ?_, ?_⟩
  · have hres : getToolByName "jira_update_issue" = some jiraUpdateIssueDef := rfl
    have hd : dispatchBody env jiraUpdateIssueDef "jira_update_issue"
        [("issue_key", .str "PROJ-1"), ("fields", .str s)] =
        jiraUpdateIssueBranch env [("issue_key", .str "PROJ-1"), ("fields", .str s)] := rfl
    have hb : jiraUpdateIssueBranch env [("issue_key", .str "PROJ-1"), ("fields", .str s)] =
        (.error (invalidJSONError "fields"), []) := by
      simp [jiraUpdateIssueBranch, hj, hro, getArg, truthy, hs, parseJsonField, hbad]
    simp [callTool, hres, hd, hb, invalidJSONError, mkText]
  · have hres : getToolByName "jira_update_issue" = some jiraUpdateIssueDef := rfl
    have hd : dispatchBody env jiraUpdateIssueDef "jira_update_issue"
        [("issue_key", .str "PROJ-1"), ("additional_fields", .str s)] =
        jiraUpdateIssueBranch env
          [("issue_key", .str "PROJ-1"), ("additional_fields", .str s)] := rfl
    have hb : jiraUpdateIssueBranch env
        [("issue_key", .str "PROJ-1"), ("additional_fields", .str s)] =
        (.error (invalidJSONError "additional_fields"), []) := by
      simp [jiraUpdateIssueBranch, hj, hro, getArg, truthy, hs, parseJsonField, hbad]
    simp [callTool, hres, hd, hb, invalidJSONError, mkText]
  · have hres : getToolByName "jira_create_issue" = some jiraCreateIssueDef := rfl
    have hd : dispatchBody env jiraCreateIssueDef "jira_create_issue"
        [("project_key", .str "P"), ("summary", .str "S"), ("issue_type", .str "Task"),
         ("additional_fields", .str s)] =
        jiraCreateIssueBranch env
          [("project_key", .str "P"), ("summary", .str "S"), ("issue_type", .str "Task"),
           ("additional_fields", .str s)] := rfl
    have hb : jiraCreateIssueBranch env
        [("project_key", .str "P"), ("summary", .str "S"), ("issue_type", .str "Task"),
         ("additional_fields", .str s)] =
        (.error (invalidJSONError "additional_fields"), []) := by
      simp [jiraCreateIssueBranch, hj, hro, getArg, truthy, hs, parseJsonField, hbad]
    simp [callTool, hres, hd, hb, invalidJSONError, mkText]
  · have hres : getToolByName "jira_transition_issue" = some jiraTransitionIssueDef := rfl
    have hd : dispatchBody env jiraTransitionIssueDef "jira_transition_issue"
        [("issue_key", .str "PROJ-1"), ("transition_id", .str "11"), ("fields", .str s)] =
        jiraTransitionIssueBranch env
          [("issue_key", .str "PROJ-1"), ("transition_id", .str "11"),
           ("fields", .str s)] := rfl
    have hb : jiraTransitionIssueBranch env
        [("issue_key", .str "PROJ-1"), ("transition_id", .str "11"), ("fields", .str s)] =
        (.error (invalidJSONError "fields"), []) := by
      simp [jiraTransitionIssueBranch, hj, hro, getArg, truthy, hs, parseJsonField, hbad,
        h11, hp11]
    simp [callTool, hres, hd, hb, invalidJSONError, mkText]

/-- C5 witness: the `fields` scenario evaluated at `testEnv` with the
spec's sample malformed document. -/
theorem c5_invalid_json_witness :
    callTool testEnv "jira_update_issue"
      [("issue_key", .str "PROJ-1"), ("fields", .str "\x7bnot json")] =
      (.ok [mkText "Error: Invalid JSON in fields: Invalid JSON format"], []) :=
  (c5_invalid_json_names_field_and_skips_collaborator testEnv "\x7bnot json"
    rfl rfl (by decide) rfl).1

/-- The copy-iterating removal loop, started from a prefix of already-kept
(existing) paths, keeps that prefix and filters the remaining suffix. -/
theorem removeMissingAux_eq (ex : String → Bool) (rest : List String) :
    ∀ good : List String, (∀ g ∈ good, ex g = true) →
      removeMissingAux ex (good ++ rest) rest = good ++ rest.filter ex := by
  induction rest with
  | nil => intro good _; simp [removeMissingAux]
  | cons p tl ih =>
    intro good hgood
    by_cases hp : ex p = true
    · have hstep : removeMissingAux ex (good ++ p :: tl) (p :: tl) =
          removeMissingAux ex ((good ++ [p]) ++ tl) tl := by
        simp [removeMissingAux, hp]
      rw [hstep, ih (good ++ [p]) (by
        intro g hg
        rcases List.mem_append.mp hg with h | h
        · exact hgood g h
        · simp at h; subst h; exact hp)]
      simp [List.filter_cons, hp]
    · have hnotmem : p ∉ good := fun hmem => hp (hgood p hmem)
      have herase : (good ++ p :: tl).erase p = good ++ tl := by
        rw [List.erase_append_right _ hnotmem, List.erase_cons_head]
      have hstep : removeMissingAux ex (good ++ p :: tl) (p :: tl) =
          removeMissingAux ex (good ++ tl) tl := by
        simp [removeMissingAux, hp, herase]
      rw [hstep, ih good hgood]
      simp [List.filter_cons, hp]

/-- The source's copy-and-erase validation loop is extensionally the filter
by path existence. -/
theorem removeMissing_eq_filter (ex : String → Bool) (l : List String) :
    removeMissing ex l = l.filter ex := by
  simpa [removeMissing] using removeMissingAux_eq ex l [] (by simp)


/-- C9: a `jira_update_issue` attachments argument that normalizes to a
sequence of path strings — a plain single path, a comma-separated list, or
an already-a-list argument, as the accompanying conjuncts show — reaches the
collaborator filtered to exactly the paths that exist on disk, the missing
ones dropped with no error in the successful result. -/
theorem c9_attachments_filtered_to_existing (env : Env) (a : Value) (n : List String)
    (p : String) (hj : env.jiraConfigured = true) (hro : env.readOnly = false)
    (hnorm : normalizeAttachments env a = n.map some)
    (hcol : env.collab (CollabCall.jiraUpdateIssue (.str "PROJ-1") []
        (if (n.filter env.pathExists).isEmpty then []
         else [("attachments", Json.arr ((n.filter env.pathExists).map Json.str))])) =
      .ok p) :
    callTool env "jira_update_issue" [("issue_key", .str "PROJ-1"), ("attachments", a)] =
      (.ok [mkText ("Issue updated successfully:\n" ++ p)],
       [CollabCall.jiraUpdateIssue (.str "PROJ-1") []
         (if (n.filter env.pathExists).isEmpty then []
          else [("attachments", Json.arr ((n.filter env.pathExists).map Json.str))])]) ∧
    (∀ s : String, env.jsonLoads s = Option.none → pyInStr "," s = false → s ≠ "" →
       normalizeAttachments env (.str s) = [s].map some) ∧
    (∀ s : String, env.jsonLoads s = Option.none → pyInStr "," s = true →
       normalizeAttachments env (.str s) = ((pySplitComma s).map pyStrip).map some) ∧
    (∀ l : List String, l ≠ [] →
       normalizeAttachments env (.list (l.map Value.str)) = l.map some) := by
  refine ⟨?_, ?_, ?_, ?_⟩
  · have hres : getToolByName "jira_update_issue" = some jiraUpdateIssueDef := rfl
    have hd : dispatchBody env jiraUpdateIssueDef "jira_update_issue"
        [("issue_key", .str "PROJ-1"), ("attachments", a)] =
        jiraUpdateIssueBranch env [("issue_key", .str "PROJ-1"), ("attachments", a)] := rfl
    have hval : validateAttachments env (n.map some) = .ok (n.filter env.pathExists) := by
      simp [validateAttachments, List.all_map, List.filterMap_map, List.filterMap_eq_map,
        removeMissing_eq_filter]
    have hb : jiraUpdateIssueBranch env
        [("issue_key", .str "PROJ-1"), ("attachments", a)] =
        (.ok [mkText ("Issue updated successfully:\n" ++ p)],
         [CollabCall.jiraUpdateIssue (.str "PROJ-1") []
           (if (n.filter env.pathExists).isEmpty then []
            else [("attachments", Json.arr ((n.filter env.pathExists).map Json.str))])]) := by
      simp only [jiraUpdateIssueBranch, hj, hro, Bool.not_true, Bool.false_eq_true,
        if_false, if_true]
      simp only [getArg,
        show (("issue_key" == "issue_key") = true) from rfl,
        show (("issue_key" == "fields") = false) from rfl,
        show (("attachments" == "fields") = false) from rfl,
        show (("issue_key" == "additional_fields") = false) from rfl,
        show (("attachments" == "additional_fields") = false) from rfl,
        show (("issue_key" == "attachments") = false) from rfl,
        show (("attachments" == "attachments") = true) from rfl, if_true, if_false]
      simp only [truthy, Bool.false_eq_true, if_false]
      rw [hnorm, hval]
      simp only [asObj, setKey]
      rw [hcol]
    simp [callTool, hres, hd, hb]
  · intro s hbad hcomma hs
    simp [normalizeAttachments, truthy, hs, hbad, hcomma]
  · intro s hbad hcomma
    have hs : s ≠ "" := by
      rintro rfl
      exact absurd hcomma (by decide)
    simp [normalizeAttachments, truthy, hs, hbad, hcomma]
  · intro l hl
    have hne : (l.map Value.str).isEmpty = false := by
      simp [List.isEmpty_iff, hl]
    simp [normalizeAttachments, truthy, hne, List.map_map, Function.comp]

/-- C9 witness: the spec's scenario — `"/exists.txt,/missing.txt"` with only
`/exists.txt` on disk — proceeds with exactly `/exists.txt` and reports
success. -/
theorem c9_attachments_filtered_to_existing_witness :
    callTool testEnv "jira_update_issue"
      [("issue_key", .str "PROJ-1"),
       ("attachments", .str "/exists.txt,/missing.txt")] =
      (.ok [mkText "Issue updated successfully:\npayload"],
       [CollabCall.jiraUpdateIssue (.str "PROJ-1") []
         [("attachments", Json.arr [Json.str "/exists.txt"])]]) :=
  (c9_attachments_filtered_to_existing testEnv (.str "/exists.txt,/missing.txt")
    ["/exists.txt", "/missing.txt"] "payload" rfl rfl rfl rfl).1

/-- C1 counterexample: an unknown tool name makes `call_tool` raise
`ValueError` (the resolution check sits before the `try` block), so the
caller receives a propagated exception, not a result value; and a fault in
a resolved tool is returned as `Error: <message>` with no tag naming the
attempted operation. -/
theorem c1_unknown_tool_raises :
    (callTool testEnv "bogus_tool" []).1 =
      Except.error (valueError "Unknown tool: bogus_tool") ∧
    (callTool testEnvFail "jira_get_worklog" [("issue_key", .str "PROJ-1")]).1 =
      Except.ok [mkText "Error: boom"] ∧
    pyInStr "jira_get_worklog" "Error: boom" = false :=
  ⟨rfl, rfl, rfl⟩

/-- C1 (amended): once the tool name resolves in a registry, `call_tool`
always returns a result value — every exception of the dispatch body is
caught by the outer handler and becomes the text `Error: <message>` (tagged
with the operation name only insofar as the exception message happens to
contain it); an unresolved tool name instead raises a `ValueError` that
propagates to the caller. -/
theorem c1_resolved_faults_become_error_results (env : Env) (name : String)
    (args : Args) (tool : ToolDefinition) (hres : getToolByName name = some tool) :
    (∃ r, (callTool env name args).1 = Except.ok r) ∧
    (∀ e, (dispatchBody env tool name args).1 = Except.error e →
      (callTool env name args).1 = Except.ok [mkText ("Error: " ++ e.msg)]) := by
  constructor
  · rcases h : (dispatchBody env tool name args).1 with e | r
    · exact ⟨[mkText ("Error: " ++ e.msg)], by simp [callTool, hres, h]⟩
    · exact ⟨r, by simp [callTool, hres, h]⟩
  · intro e he
    simp [callTool, hres, he]

/-- C1 witness: a collaborator failure in the resolved `jira_get_worklog`
dispatch is returned as the caught `Error: boom` text. -/
theorem c1_resolved_faults_become_error_results_witness :
    (callTool testEnvFail "jira_get_worklog" [("issue_key", .str "PROJ-1")]).1 =
      Except.ok [mkText "Error: boom"] :=
  (c1_resolved_faults_become_error_results testEnvFail "jira_get_worklog"
    [("issue_key", .str "PROJ-1")] jiraGetWorklogDef rfl).2 ⟨"ApiError", "boom"⟩ rfl
